import Mathlib

/-!
Shallow embedding of the learning / conversation core of the Metatron
repository, covering:

* `backend/memory/learning/vanna_learning_adapter.py` — the pattern store
  (`VannaLearningAdapter`): `learn_from_interaction`,
  `retrieve_relevant_patterns`, `record_feedback`, `cleanup_old_patterns`
  and their helpers.
* `backend/memory/conversation/rasa_conversation_manager.py` — the
  conversation flow engine (`RasaConversationManager`): session state,
  flow determination, step execution, history bounding.

Modelling conventions used throughout:

* Python floats are modelled as rationals (`ℚ`).  The TF-IDF / cosine
  similarity kernels computed by scikit-learn (`TfidfVectorizer.fit`,
  `transform`, `cosine_similarity`) are floating point library code
  external to the repository; they are abstracted as function parameters
  (`textSim` for `_calculate_text_similarity`, `qsim` for the similarity
  of a fixed query against a stored text under the fitted vectorizer).
  All surrounding logic (gates, filtering, index alignment, blending,
  sorting, truncation) is translated from the source.
* Timestamps (`datetime.now().isoformat()`) are modelled as rationals
  passed in as a `now` parameter; `fromisoformat` of a stored timestamp
  is the identity on that rational.
* `uuid.uuid4()` results are passed in as fresh-name parameters.
* Python `dict` (insertion ordered) is modelled as a `List`; assignment
  `d[k] = v` is insert-or-replace keeping the position of an existing
  key; `d.values()` is the list itself.
* Disk persistence (`_save_patterns`, `_save_feedback`, pickling the
  vectorizer) does not change in-memory state and is not modelled; the
  fitted vectorizer and the pattern-vector matrix are represented by the
  lists of texts they were last (re)built from, which is exactly the
  information that determines them.
-/

/-! ### Data model: `LearningPattern` and `FeedbackRecord` dataclasses -/

/-- `LearningPattern` dataclass from `vanna_learning_adapter.py`. -/
structure LearningPattern where
  id : String
  pattern_type : String
  input_context : String
  successful_output : String
  success_score : ℚ
  brain_region : String
  metadata : List (String × String)
  created_at : ℚ
  usage_count : Nat
  last_used : Option ℚ
  effectiveness_score : ℚ
deriving DecidableEq, Repr

/-- `FeedbackRecord` dataclass from `vanna_learning_adapter.py`. -/
structure FeedbackRecord where
  id : String
  pattern_id : String
  user_id : String
  feedback_type : String
  original_output : String
  corrected_output : Option String
  feedback_score : ℚ
  timestamp : ℚ
  context : List (String × String)
deriving DecidableEq, Repr

/-- In-memory state of a `VannaLearningAdapter` instance: configuration
(`min_success_score`, `pattern_decay_days`), the two stores, and the
derived similarity index.  `fittedCorpus` is the corpus the TF-IDF
vectorizer was last fitted on; `patternVectors` is the list of texts the
pattern-vector matrix was last built from (`None` before the first
build), one row per text in order. -/
structure VannaState where
  min_success_score : ℚ
  pattern_decay_days : ℚ
  patterns : List LearningPattern
  feedback_records : List FeedbackRecord
  fittedCorpus : Option (List String)
  patternVectors : Option (List String)
deriving DecidableEq, Repr

/-- Python `dict` assignment `self.patterns[p.id] = p`: replace in place
if the key exists, else append. -/
def dictInsertPattern (p : LearningPattern) (ps : List LearningPattern) :
    List LearningPattern :=
  if ps.any (fun q => q.id == p.id) then
    ps.map (fun q => if q.id = p.id then p else q)
  else ps ++ [p]

/-- Python `dict` assignment `self.feedback_records[r.id] = r`. -/
def dictInsertFeedback (r : FeedbackRecord) (rs : List FeedbackRecord) :
    List FeedbackRecord :=
  if rs.any (fun q => q.id == r.id) then
    rs.map (fun q => if q.id = r.id then r else q)
  else rs ++ [r]

/-- `_find_similar_pattern`: first stored pattern (dict order) with the
same `pattern_type` and `brain_region` whose `input_context` has
`_calculate_text_similarity` (abstracted as `textSim`) strictly greater
than `0.8` to the candidate. -/
def find_similar_pattern (textSim : String → String → ℚ) (st : VannaState)
    (input_context pattern_type brain_region : String) :
    Option LearningPattern :=
  st.patterns.find? (fun p =>
    decide (p.pattern_type = pattern_type ∧ p.brain_region = brain_region ∧
      (8 : ℚ)/10 < textSim input_context p.input_context))

/-- `_update_vectorizer` followed by `_update_pattern_vectors`: a no-op
when there are no patterns; otherwise refit the vectorizer on the
current pattern `input_context`s and rebuild one vector per pattern, in
store order. -/
def update_vectorizer (st : VannaState) : VannaState :=
  if st.patterns = [] then st
  else
    { st with
      fittedCorpus := some (st.patterns.map (·.input_context)),
      patternVectors := some (st.patterns.map (·.input_context)) }

/-- `learn_from_interaction`.  Returns the pattern id (`None` when the
significance gate rejects) and the new state.  `now` stands for
`datetime.now()`, `newId` for `uuid.uuid4()`. -/
def learn_from_interaction (textSim : String → String → ℚ) (now : ℚ)
    (newId : String) (input_context output_result : String)
    (success_score : ℚ) (brain_region : String)
    (pattern_type : String := "conversation")
    (metadata : List (String × String) := []) (st : VannaState) :
    Option String × VannaState :=
  if success_score < st.min_success_score then (none, st)
  else
    match find_similar_pattern textSim st input_context pattern_type brain_region with
    | some sp =>
        (some sp.id,
          { st with
            patterns := st.patterns.map fun q =>
              if q.id = sp.id then
                { q with
                  usage_count := q.usage_count + 1,
                  last_used := some now,
                  effectiveness_score :=
                    q.effectiveness_score * (9/10) + success_score * (1/10) }
              else q })
    | none =>
        let new_pattern : LearningPattern :=
          { id := newId,
            pattern_type := pattern_type,
            input_context := input_context,
            successful_output := output_result,
            success_score := success_score,
            brain_region := brain_region,
            metadata := metadata,
            created_at := now,
            usage_count := 1,
            last_used := some now,
            effectiveness_score := success_score }
        let st1 := { st with patterns := dictInsertPattern new_pattern st.patterns }
        (some newId, update_vectorizer st1)

/-- Python truthiness test used in the retrieval filter
(`if pattern_type and pattern.pattern_type != pattern_type: continue`):
a pattern survives the filter when the filter is absent, empty (falsy),
or equal to the pattern's tag. -/
def filterOk (filt : Option String) (v : String) : Bool :=
  match filt with
  | none => true
  | some t => t == "" || v == t

/-- Stable insertion into a list sorted by non-increasing score: the new
element goes after every element with score `≥` its own.  Together with
`sortByScoreDesc` this models Python's stable
`list.sort(key=lambda x: x[1], reverse=True)`. -/
def insertScoredDesc (x : LearningPattern × ℚ) :
    List (LearningPattern × ℚ) → List (LearningPattern × ℚ)
  | [] => [x]
  | y :: ys => if y.2 < x.2 then x :: y :: ys else y :: insertScoredDesc x ys

/-- Stable sort by non-increasing score (see `insertScoredDesc`). -/
def sortByScoreDesc (l : List (LearningPattern × ℚ)) :
    List (LearningPattern × ℚ) :=
  l.foldl (fun acc x => insertScoredDesc x acc) []

/-- Lowercase for an ASCII character, as in Python `str.lower()` on the
texts appearing here. -/
def lowerChar (c : Char) : Char :=
  if 'A' ≤ c ∧ c ≤ 'Z' then Char.ofNat (c.toNat + 32) else c

/-- Python `str.lower()`. -/
def lowerStr (s : String) : String := String.mk (s.data.map lowerChar)

/-- Helper for `splitWords`: splits a character list on runs of
whitespace, accumulating the current word (reversed). -/
def splitWordsAux : List Char → List Char → List String
  | [], acc => if acc = [] then [] else [String.mk acc.reverse]
  | c :: cs, acc =>
      if c = ' ' ∨ c = '\t' ∨ c = '\n' then
        if acc = [] then splitWordsAux cs []
        else String.mk acc.reverse :: splitWordsAux cs []
      else splitWordsAux cs (c :: acc)

/-- Python `str.split()` (split on whitespace runs, no empty words). -/
def splitWords (s : String) : List String := splitWordsAux s.data []

/-- Python `set(text.lower().split())`, as the list of distinct words in
first-occurrence order. -/
def wordSet (s : String) : List String := (splitWords (lowerStr s)).dedup

/-- `_simple_text_matching`: word-overlap fallback ranking used when the
pattern-vector matrix is absent.  For each candidate with a non-empty
word union, scores `|intersection|/|union| * 0.7 + effectiveness * 0.3`,
then stable-sorts by score descending and truncates. -/
def simple_text_matching (query : String) (patterns : List LearningPattern)
    (limit : Nat) : List LearningPattern :=
  let query_words := wordSet query
  let scored := patterns.filterMap fun p =>
    let pattern_words := wordSet p.input_context
    let overlap := (query_words.filter (fun w => w ∈ pattern_words)).length
    let total := query_words.length + (pattern_words.filter (fun w => w ∉ query_words)).length
    if total > 0 then
      some (p, ((overlap : ℚ) / total) * (7/10) + p.effectiveness_score * (3/10))
    else none
  ((sortByScoreDesc scored).take limit).map Prod.fst

/-- The candidate filter of `retrieve_relevant_patterns` (patterns
surviving the optional type / region filters, in store order). -/
def candidateFilter (pattern_type brain_region : Option String)
    (st : VannaState) : List LearningPattern :=
  st.patterns.filter fun p =>
    filterOk pattern_type p.pattern_type && filterOk brain_region p.brain_region

/-- The scoring loop of the vectorized branch of
`retrieve_relevant_patterns`: `similarities` holds one cosine value per
text the pattern-vector matrix was built from, and the loop pairs
`similarities[i]` with the `i`-th *filtered* candidate (skipping
candidates beyond the end of `similarities`), scoring
`similarities[i] * 0.7 + candidate.effectiveness_score * 0.3`. -/
def vectorScored (qsim : String → ℚ) (texts : List String)
    (candidates : List LearningPattern) : List (LearningPattern × ℚ) :=
  let similarities := texts.map qsim
  candidates.enum.filterMap fun ip =>
    match similarities.get? ip.1 with
    | some s => some (ip.2, s * (7/10) + ip.2.effectiveness_score * (3/10))
    | none => none

/-- `retrieve_relevant_patterns`.  `qsim text` abstracts the cosine
similarity of the fixed query's TF-IDF vector against the vector of
`text` under the currently fitted vectorizer; the code computes
`similarities` against `self.pattern_vectors`, i.e. one entry per text
the vector matrix was last built from (`st.patternVectors`). -/
def retrieve_relevant_patterns (qsim : String → ℚ) (query_context : String)
    (pattern_type : Option String := none)
    (brain_region : Option String := none) (limit : Nat := 5)
    (st : VannaState) : List LearningPattern :=
  if st.patterns = [] then []
  else
    let candidate_patterns := candidateFilter pattern_type brain_region st
    if candidate_patterns = [] then []
    else
      match st.patternVectors with
      | some texts =>
          ((sortByScoreDesc (vectorScored qsim texts candidate_patterns)).take
            limit).map Prod.fst
      | none => simple_text_matching query_context candidate_patterns limit

/-- `record_feedback`.  Appends the feedback record, blends the
referenced pattern's effectiveness when the pattern exists, and, when a
non-empty correction with positive score is supplied, re-learns the
correction (`corrId` is the uuid that re-learn would use for a freshly
created pattern). -/
def record_feedback (textSim : String → String → ℚ) (now : ℚ)
    (feedback_id corrId : String) (pattern_id user_id feedback_type : String)
    (feedback_score : ℚ) (original_output : String)
    (corrected_output : Option String := none)
    (context : List (String × String) := []) (st : VannaState) :
    Option String × VannaState :=
  let rec_ : FeedbackRecord :=
    { id := feedback_id,
      pattern_id := pattern_id,
      user_id := user_id,
      feedback_type := feedback_type,
      original_output := original_output,
      corrected_output := corrected_output,
      feedback_score := feedback_score,
      timestamp := now,
      context := context }
  let st1 := { st with feedback_records := dictInsertFeedback rec_ st.feedback_records }
  match st1.patterns.find? (fun p => p.id == pattern_id) with
  | none => (some feedback_id, st1)
  | some pattern =>
      let st2 :=
        { st1 with
          patterns := st1.patterns.map fun q =>
            if q.id = pattern_id then
              { q with
                effectiveness_score :=
                  q.effectiveness_score * (8/10) + (feedback_score + 1)/2 * (2/10) }
            else q }
      let st3 :=
        match corrected_output with
        | some corr =>
            if corr ≠ "" ∧ 0 < feedback_score then
              (learn_from_interaction textSim now corrId pattern.input_context corr
                (min 1 (feedback_score + 1/2)) pattern.brain_region
                pattern.pattern_type
                [("source", "user_correction"), ("original_pattern", pattern_id)]
                st2).2
            else st2
        | none => st2
      (some feedback_id, st3)

/-- The removal test of `cleanup_old_patterns`: older than the cutoff
AND ineffective AND rarely used. -/
def staleCondition (now : ℚ) (st : VannaState) (p : LearningPattern) : Prop :=
  p.created_at < now - st.pattern_decay_days ∧
    p.effectiveness_score < 1/2 ∧ p.usage_count < 3

instance (now : ℚ) (st : VannaState) (p : LearningPattern) :
    Decidable (staleCondition now st p) := by
  unfold staleCondition; infer_instance

/-- `cleanup_old_patterns`: collect the ids of stale patterns, delete
them from the store, and rebuild the similarity index only when
something was removed. -/
def cleanup_old_patterns (now : ℚ) (st : VannaState) : VannaState :=
  let patterns_to_remove :=
    (st.patterns.filter (fun p => decide (staleCondition now st p))).map (·.id)
  let st1 := { st with patterns := st.patterns.filter (fun p => decide (p.id ∉ patterns_to_remove)) }
  if patterns_to_remove = [] then st1 else update_vectorizer st1

/-! ### Conversation manager: data model
(`rasa_conversation_manager.py`) -/

/-- `ConversationState` enum. -/
inductive ConversationState where
  | idle | listening | processing | waiting_for_input | agent_handoff
  | flow_execution | memory_retrieval | completed | error
deriving DecidableEq, Repr

/-- A value stored in the open `flow_variables` dict: the code stores
ints (`current_step`), timestamps (modelled as rationals,
`flow_start_time` / `flow_duration`) and strings (collected input). -/
inductive FVal where
  | int (n : Int)
  | rat (q : ℚ)
  | str (s : String)
deriving DecidableEq, Repr

/-- One entry of `conversation_history`. -/
structure HistoryEntry where
  role : String
  content : String
  timestamp : ℚ
  brain_region : String
deriving DecidableEq, Repr

/-- The placeholder memory-query result stored into
`memory_context['last_query']` (its `results` list is always empty in
the source). -/
structure MemoryResult where
  query : String
  brain_region : String
  results : List String
  timestamp : ℚ
deriving DecidableEq, Repr

/-- The placeholder agent-call result stored into
`agent_context[agent_id]`. -/
structure AgentResult where
  agent_id : String
  agent_name : String
  request : String
  response : String
  status : String
  timestamp : ℚ
deriving DecidableEq, Repr

/-- `ConversationContext` dataclass. -/
structure ConversationContext where
  session_id : String
  user_id : String
  current_state : ConversationState
  current_flow : Option String
  flow_type : Option String
  brain_region : String
  memory_context : List (String × MemoryResult)
  agent_context : List (String × AgentResult)
  flow_variables : List (String × FVal)
  conversation_history : List HistoryEntry
  created_at : ℚ
  updated_at : ℚ
  metadata : List (String × String)
deriving DecidableEq, Repr

/-- The `data` dict of a flow step: the keys each step handler reads
(`template`, `query`, `brain_region`, `agent_id`, `condition`,
`variable` — field `varname`, since `variable` is unavailable as a
field name — and `prompt`), absent keys as `none`. -/
structure FlowStepData where
  template : Option String
  query : Option String
  brain_region : Option String
  agent_id : Option String
  condition : Option String
  varname : Option String
  prompt : Option String
deriving DecidableEq, Repr

/-- A step data dict with no keys set. -/
def noStepData : FlowStepData := ⟨none, none, none, none, none, none, none⟩

/-- One step of a flow: the `type` tag (field `step_type`, since `type`
is unavailable as a field name) and its `data` dict
(`step.get('type', 'message')` / `step.get('data', {})`). -/
structure FlowStep where
  step_type : String
  data : FlowStepData
deriving DecidableEq, Repr

/-- `ConversationFlow` dataclass.  `flow_type` holds the `FlowType` enum
value string; `success_criteria` is the (unused) criteria dict. -/
structure ConversationFlow where
  flow_id : String
  flow_name : String
  flow_type : String
  description : String
  trigger_patterns : List String
  brain_regions : List String
  steps : List FlowStep
  required_context : List String
  expected_duration : Nat
  success_criteria : List (String × Bool)
  fallback_actions : List String
  metadata : List (String × String)
deriving DecidableEq, Repr

/-- `AgentCapability` dataclass, restricted to the fields the step
executor reads (`agent_name`); the remaining purely descriptive fields
are omitted. -/
structure AgentCapability where
  agent_id : String
  agent_name : String
deriving DecidableEq, Repr

/-- The result dict returned by `process_message` and the step / flow
executors, restricted to the keys the engine itself branches on or that
the claims mention; absent keys as `none` / `false`. -/
structure StepResult where
  success : Bool
  response : Option String
  step_completed : Bool
  next_state : Option String
  error_msg : Option String
  flow_completed : Bool
  flow_id : Option String
  duration : Option ℚ
deriving DecidableEq, Repr

/-- A result dict with no keys set. -/
def emptyResult : StepResult := ⟨false, none, false, none, none, false, none, none⟩

/-- The error dict produced by the `except` handlers
(`{'success': False, 'error': ..., 'next_state'/'step_completed': ...}`). -/
def errorResult (msg : String) : StepResult :=
  { emptyResult with success := false, error_msg := some msg, next_state := some "error" }

/-- In-memory state of a `RasaConversationManager` instance. -/
structure RasaManager where
  max_conversation_history : Nat
  sessions : List (String × ConversationContext)
  flows : List (String × ConversationFlow)
  agents : List (String × AgentCapability)
deriving DecidableEq, Repr

/-! ### Conversation manager: string and dict helpers -/

/-- Bool-valued prefix test on character lists. -/
def prefixCheck : List Char → List Char → Bool
  | [], _ => true
  | _ :: _, [] => false
  | a :: as, b :: bs => a == b && prefixCheck as bs

/-- Substring occurrence on character lists (empty needle handled in
`subStrB`). -/
def infixCheck (n : List Char) : List Char → Bool
  | [] => false
  | c :: cs => prefixCheck n (c :: cs) || infixCheck n cs

/-- Python `needle in hay` on strings. -/
def subStrB (needle hay : String) : Bool :=
  needle == "" || infixCheck needle.data hay.data

/-- Replace-all helper; `fuel` (initially the text length) only bounds
the recursion and never runs out, since every step consumes at least
one character of the text. -/
def replaceAux (pat rep : List Char) : Nat → List Char → List Char
  | _, [] => []
  | 0, s => s
  | fuel+1, c :: cs =>
      if pat ≠ [] ∧ prefixCheck pat (c :: cs) then
        rep ++ replaceAux pat rep fuel ((c :: cs).drop pat.length)
      else c :: replaceAux pat rep fuel cs

/-- Python `s.replace(pat, rep)` for the non-empty patterns used by the
template substitution. -/
def replaceStr (s pat rep : String) : String :=
  String.mk (replaceAux pat.data rep.data s.data.length s.data)

/-- Lookup in a `flow_variables` dict. -/
def fvLookup (k : String) (l : List (String × FVal)) : Option FVal :=
  (l.find? (fun kv => kv.1 == k)).map (·.2)

/-- Python dict assignment on `flow_variables`: replace the (unique)
existing entry in place, else append. -/
def fvSet (k : String) (v : FVal) : List (String × FVal) →
    List (String × FVal)
  | [] => [(k, v)]
  | kv :: l => if kv.1 = k then (k, v) :: l else kv :: fvSet k v l

/-- Generic assoc-list lookup for the remaining dicts. -/
def alistLookup {β : Type} (k : String) (l : List (String × β)) : Option β :=
  (l.find? (fun kv => kv.1 == k)).map (·.2)

/-- Generic Python dict assignment for the remaining dicts: replace the
(unique) existing entry in place, else append. -/
def alistSet {β : Type} (k : String) (v : β) : List (String × β) →
    List (String × β)
  | [] => [(k, v)]
  | kv :: l => if kv.1 = k then (k, v) :: l else kv :: alistSet k v l

/-- Python `str(value)` on a flow variable (used only inside rendered
response text, which no claim inspects). -/
def fvToString : FVal → String
  | .int n => toString n
  | .rat q => toString q
  | .str s => s

/-! ### Conversation manager: operations -/

/-- `_classify_brain_region`: fixed keyword buckets, checked in order by
substring containment on the lowercased message. -/
def classify_brain_region (message : String) : String :=
  let ml := lowerStr message
  if ["remember", "memory", "recall", "forget"].any (fun w => subStrB w ml) then
    "TEMPORAL_LOBE"
  else if ["my", "i am", "personal", "preference"].any (fun w => subStrB w ml) then
    "OCCIPITAL_LOBE"
  else if ["working", "current", "task", "now"].any (fun w => subStrB w ml) then
    "PARIETAL_LOBE"
  else if ["tool", "system", "function", "api"].any (fun w => subStrB w ml) then
    "CEREBELLUM"
  else "FRONTAL_LOBE"

/-- `_add_to_conversation_history`: append an entry, then keep only the
most recent `max_conversation_history` entries. -/
def add_to_conversation_history (maxH : Nat) (ctx : ConversationContext)
    (role content : String) (now : ℚ) : ConversationContext :=
  let entry : HistoryEntry :=
    { role := role, content := content, timestamp := now,
      brain_region := ctx.brain_region }
  let h := ctx.conversation_history ++ [entry]
  { ctx with
    conversation_history := if h.length > maxH then h.drop (h.length - maxH) else h }

/-- `_determine_conversation_flow`: score every registered flow
(1.0 per trigger substring of the lowercased message, +0.5 for brain
region compatibility, +0.3 when every `required_context` key is present
in `flow_variables`) and keep the first flow that strictly improves the
best score while exceeding the 0.5 threshold.  Returns
`(flow_id, confidence)`. -/
def determine_conversation_flow (flows : List (String × ConversationFlow))
    (ctx : ConversationContext) (message : String) : Option String × ℚ :=
  let ml := lowerStr message
  flows.foldl
    (fun best fl =>
      let score : ℚ :=
        (fl.2.trigger_patterns.foldl
          (fun s pat => if subStrB (lowerStr pat) ml then s + 1 else s) 0)
        + (if ctx.brain_region ∈ fl.2.brain_regions then 1/2 else 0)
        + (if fl.2.required_context.all
              (fun req => (fvLookup req ctx.flow_variables).isSome) then 3/10
           else 0)
      if best.2 < score ∧ 1/2 < score then (some fl.1, score) else best)
    (none, 0)

/-- `_execute_message_step`: render the template by substituting each
`{var}` with the stringified flow variable, record the response in the
history, complete. -/
def execute_message_step (maxH : Nat) (ctx : ConversationContext)
    (step_data : FlowStepData) (now : ℚ) : StepResult × ConversationContext :=
  let response_template := step_data.template.getD "I understand."
  let response := ctx.flow_variables.foldl
    (fun r kv => replaceStr r ("\x7b" ++ kv.1 ++ "\x7d") (fvToString kv.2))
    response_template
  let ctx1 := add_to_conversation_history maxH ctx "assistant" response now
  ({ emptyResult with
      success := true, response := some response, step_completed := true,
      next_state := some "waiting_for_input" }, ctx1)

/-- `_execute_memory_step`: store the placeholder memory result under
`memory_context['last_query']`, complete. -/
def execute_memory_step (ctx : ConversationContext)
    (step_data : FlowStepData) (message : String) (now : ℚ) :
    StepResult × ConversationContext :=
  let query := step_data.query.getD message
  let region := step_data.brain_region.getD ctx.brain_region
  let memory_result : MemoryResult :=
    { query := query, brain_region := region, results := [], timestamp := now }
  let ctx1 :=
    { ctx with memory_context := alistSet "last_query" memory_result ctx.memory_context }
  ({ emptyResult with
      success := true, step_completed := true, next_state := some "processing" },
    ctx1)

/-- `_execute_agent_step`: fail (step not completed) when `agent_id` is
missing, falsy, or unregistered; otherwise store the placeholder agent
result under `agent_context[agent_id]` and complete. -/
def execute_agent_step (agents : List (String × AgentCapability))
    (ctx : ConversationContext) (step_data : FlowStepData)
    (message : String) (now : ℚ) : StepResult × ConversationContext :=
  match step_data.agent_id with
  | none =>
      ({ emptyResult with
          success := false,
          error_msg := some "Agent not found", step_completed := false }, ctx)
  | some aid =>
      if aid = "" then
        ({ emptyResult with
            success := false,
            error_msg := some "Agent not found", step_completed := false }, ctx)
      else
        match alistLookup aid agents with
        | none =>
            ({ emptyResult with
                success := false,
                error_msg := some "Agent not found", step_completed := false }, ctx)
        | some agent =>
            let agent_result : AgentResult :=
              { agent_id := aid, agent_name := agent.agent_name,
                request := message,
                response :=
                  "Agent " ++ agent.agent_name ++ " processed: " ++ message,
                status := "completed", timestamp := now }
            let ctx1 :=
              { ctx with agent_context := alistSet aid agent_result ctx.agent_context }
            ({ emptyResult with
                success := true, step_completed := true,
                next_state := some "processing" }, ctx1)

/-- `_evaluate_condition`. -/
def evaluate_condition (condition : String) (ctx : ConversationContext) : Bool :=
  if subStrB "has_memory" condition then ctx.memory_context ≠ []
  else if subStrB "message_contains" condition then true
  else true

/-- `_execute_condition_step`: always completes. -/
def execute_condition_step (ctx : ConversationContext)
    (step_data : FlowStepData) : StepResult × ConversationContext :=
  let condition := step_data.condition.getD "true"
  let _result : Bool :=
    if condition = "true" then true
    else if condition = "false" then false
    else evaluate_condition condition ctx
  ({ emptyResult with
      success := true, step_completed := true, next_state := some "processing" },
    ctx)

/-- `_execute_input_step`: store the message under the configured flow
variable, complete. -/
def execute_input_step (ctx : ConversationContext)
    (step_data : FlowStepData) (message : String) :
    StepResult × ConversationContext :=
  let variable_name := step_data.varname.getD "user_input"
  let ctx1 :=
    { ctx with flow_variables := fvSet variable_name (.str message) ctx.flow_variables }
  ({ emptyResult with
      success := true, step_completed := true, next_state := some "processing" },
    ctx1)

/-- `_execute_flow_step`: typed dispatch on the step's `type`. -/
def execute_flow_step (agents : List (String × AgentCapability)) (maxH : Nat)
    (ctx : ConversationContext) (step : FlowStep) (message : String)
    (now : ℚ) : StepResult × ConversationContext :=
  if step.step_type = "message" then execute_message_step maxH ctx step.data now
  else if step.step_type = "memory_query" then
    execute_memory_step ctx step.data message now
  else if step.step_type = "agent_call" then
    execute_agent_step agents ctx step.data message now
  else if step.step_type = "condition" then execute_condition_step ctx step.data
  else if step.step_type = "input_collection" then
    execute_input_step ctx step.data message
  else
    ({ emptyResult with
        success := false,
        error_msg := some ("Unknown step type: " ++ step.step_type),
        step_completed := false }, ctx)

/-- `_complete_flow`: mark the session completed, clear `current_flow`,
record `flow_duration = now - flow_start_time` when a start time was
recorded.  A non-rational start time (unreachable through the public
operations) models the `fromisoformat` failure path and yields the
handler's error dict. -/
def complete_flow (ctx : ConversationContext) (flow : ConversationFlow)
    (now : ℚ) : StepResult × ConversationContext :=
  let ctx1 := { ctx with current_state := .completed, current_flow := none }
  match fvLookup "flow_start_time" ctx1.flow_variables with
  | some (.rat start_time) =>
      let duration := now - start_time
      let ctx2 :=
        { ctx1 with
          flow_variables := fvSet "flow_duration" (.rat duration) ctx1.flow_variables }
      ({ emptyResult with
          success := true, flow_completed := true, flow_id := some flow.flow_id,
          duration := some duration, next_state := some "idle" }, ctx2)
  | some _ => (errorResult "fromisoformat", ctx1)
  | none =>
      ({ emptyResult with
          success := true, flow_completed := true, flow_id := some flow.flow_id,
          duration := some 0, next_state := some "idle" }, ctx1)

/-- `_execute_conversation_flow`: select the flow, enter flow execution,
initialise `current_step` / `flow_start_time` on first entry, then
either complete the flow (when `current_step` has reached the end) or
execute the current step and advance the counter when it completed.
Reading or incrementing a non-integer `current_step` models the
`TypeError` caught by the handler (error dict, context keeps the
mutations made so far); a negative `current_step` is unreachable through
the public operations (Python would index from the end of the list). -/
def execute_conversation_flow (flows : List (String × ConversationFlow))
    (agents : List (String × AgentCapability)) (maxH : Nat)
    (ctx : ConversationContext) (flow_id : String) (message : String)
    (now : ℚ) : StepResult × ConversationContext :=
  match alistLookup flow_id flows with
  | none => (errorResult ("Flow " ++ flow_id ++ " not found"), ctx)
  | some flow =>
      let ctx1 :=
        { ctx with
          current_flow := some flow_id, flow_type := some flow.flow_type,
          current_state := .flow_execution }
      let ctx2 :=
        if (fvLookup "current_step" ctx1.flow_variables).isNone then
          { ctx1 with
            flow_variables :=
              fvSet "flow_start_time" (.rat now)
                (fvSet "current_step" (.int 0) ctx1.flow_variables) }
        else ctx1
      match fvLookup "current_step" ctx2.flow_variables with
      | some (.int current_step) =>
          if current_step ≥ (flow.steps.length : Int) then
            complete_flow ctx2 flow now
          else if current_step < 0 then (errorResult "negative step index", ctx2)
          else
            match flow.steps.get? current_step.toNat with
            | none => (errorResult "step index out of range", ctx2)
            | some step =>
                let sr := execute_flow_step agents maxH ctx2 step message now
                if sr.1.step_completed then
                  match fvLookup "current_step" sr.2.flow_variables with
                  | some (.int m) =>
                      (sr.1,
                        { sr.2 with
                          flow_variables :=
                            fvSet "current_step" (.int (m + 1)) sr.2.flow_variables })
                  | _ => (errorResult "TypeError on current_step", sr.2)
                else sr
      | some _ => (errorResult "TypeError on current_step", ctx2)
      | none => (errorResult "KeyError on current_step", ctx2)

/-- `_default_message_processing`: acknowledge, ask for more detail. -/
def default_message_processing (maxH : Nat) (ctx : ConversationContext)
    (message : String) (now : ℚ) : StepResult × ConversationContext :=
  let ctx1 := { ctx with current_state := .listening }
  let response :=
    "I understand you said: " ++ message ++ ". How can I help you further?"
  let ctx2 := add_to_conversation_history maxH ctx1 "assistant" response now
  ({ emptyResult with
      success := true, response := some response,
      next_state := some "waiting_for_input" }, ctx2)

/-- `process_message`: look up the session, enter processing, append the
message to history, determine a flow and execute it, or fall back to
default processing.  The (possibly partially mutated) context is written
back to the session table. -/
def process_message (mgr : RasaManager) (session_id message : String)
    (message_type : String) (now : ℚ) : StepResult × RasaManager :=
  match alistLookup session_id mgr.sessions with
  | none => (errorResult ("Session " ++ session_id ++ " not found"), mgr)
  | some ctx =>
      let ctx1 := { ctx with current_state := .processing, updated_at := now }
      let ctx2 :=
        add_to_conversation_history mgr.max_conversation_history ctx1
          message_type message now
      match (determine_conversation_flow mgr.flows ctx2 message).1 with
      | some flow_id =>
          let sr :=
            execute_conversation_flow mgr.flows mgr.agents
              mgr.max_conversation_history ctx2 flow_id message now
          (sr.1, { mgr with sessions := alistSet session_id sr.2 mgr.sessions })
      | none =>
          let sr :=
            default_message_processing mgr.max_conversation_history ctx2
              message now
          (sr.1, { mgr with sessions := alistSet session_id sr.2 mgr.sessions })

/-- `start_conversation`: reuse an existing session (refreshing
`updated_at`) or create a fresh one in `listening` state with the brain
region classified from the first message; either way append the message
to the history.  `newSid` stands for `uuid.uuid4()`. -/
def start_conversation (mgr : RasaManager) (user_id initial_message : String)
    (session_id : Option String) (newSid : String) (now : ℚ) :
    ConversationContext × RasaManager :=
  let existing := session_id.bind fun sid =>
    (alistLookup sid mgr.sessions).map fun c => (sid, c)
  let sidCtx : String × ConversationContext :=
    match existing with
    | some (sid, c) => (sid, { c with updated_at := now })
    | none =>
        (newSid,
          { session_id := newSid, user_id := user_id,
            current_state := .listening, current_flow := none,
            flow_type := none,
            brain_region := classify_brain_region initial_message,
            memory_context := [], agent_context := [], flow_variables := [],
            conversation_history := [], created_at := now, updated_at := now,
            metadata := [] })
  let ctx1 :=
    add_to_conversation_history mgr.max_conversation_history sidCtx.2 "user"
      initial_message now
  (ctx1, { mgr with sessions := alistSet sidCtx.1 ctx1 mgr.sessions })

/-! ### Default flows (`_register_default_flows`) -/

/-- The built-in "Memory Interaction" flow. -/
def memory_flow : ConversationFlow :=
  { flow_id := "memory_interaction",
    flow_name := "Memory Interaction",
    flow_type := "memory_interaction",
    description := "Handle memory-related queries and operations",
    trigger_patterns := ["remember", "memory", "recall", "forget", "brain"],
    brain_regions := ["TEMPORAL_LOBE", "FRONTAL_LOBE"],
    steps :=
      [{ step_type := "memory_query",
         data := { noStepData with
            query := some "\x7buser_message\x7d",
            brain_region := some "\x7bbrain_region\x7d" } },
       { step_type := "message",
         data := { noStepData with
            template :=
              some "I found some relevant memories. How would you like to proceed?" } }],
    required_context := [],
    expected_duration := 30,
    success_criteria := [("memory_retrieved", true)],
    fallback_actions := ["default_response"],
    metadata := [] }

/-- The built-in "Simple Q&A" flow. -/
def qa_flow : ConversationFlow :=
  { flow_id := "simple_qa",
    flow_name := "Simple Q&A",
    flow_type := "simple_qa",
    description := "Handle simple question and answer interactions",
    trigger_patterns := ["what", "how", "why", "when", "where"],
    brain_regions := ["FRONTAL_LOBE", "TEMPORAL_LOBE"],
    steps :=
      [{ step_type := "message",
         data := { noStepData with
            template := some "Let me help you with that question." } }],
    required_context := [],
    expected_duration := 15,
    success_criteria := [("response_provided", true)],
    fallback_actions := ["default_response"],
    metadata := [] }

/-- The flow table after `_register_default_flows` (insertion order:
memory flow first, then Q&A flow). -/
def default_flows : List (String × ConversationFlow) :=
  [("memory_interaction", memory_flow), ("simple_qa", qa_flow)]

/-- A freshly initialised manager (`_load_flows` / `_load_agents` are
no-op stubs in the source, so only the defaults are registered). -/
def initManager (maxH : Nat) : RasaManager :=
  { max_conversation_history := maxH, sessions := [], flows := default_flows,
    agents := [] }

/-! ### Driver definitions for the repeated-call scenarios -/

/-- Appending a sequence of `(role, content, timestamp)` messages to a
session's history by repeated `_add_to_conversation_history` calls. -/
def appendMessages (maxH : Nat) (ctx : ConversationContext)
    (msgs : List (String × String × ℚ)) : ConversationContext :=
  msgs.foldl
    (fun c m => add_to_conversation_history maxH c m.1 m.2.1 m.2.2) ctx

/-- The history entry built for a message appended while the session's
brain region is `region`. -/
def mkHistoryEntry (region : String) (m : String × String × ℚ) :
    HistoryEntry :=
  { role := m.1, content := m.2.1, timestamp := m.2.2, brain_region := region }

/-- Driving a session with `n` `process_message` calls, all with the
same message and message type; the `k`-th call (0-based) happens at time
`times k`. -/
def process_message_iter (sid msg mtype : String) (times : Nat → ℚ)
    (mgr : RasaManager) : Nat → RasaManager
  | 0 => mgr
  | n + 1 =>
      (process_message (process_message_iter sid msg mtype times mgr n) sid
        msg mtype (times n)).2

/-- Step shapes whose execution always reports `step_completed=True` and
never touches the engine-reserved flow variables `current_step` /
`flow_start_time`: message, memory-query and condition steps
unconditionally; input-collection steps that do not write a reserved
variable; agent-call steps whose (truthy) agent id is registered. -/
def stepOk (agents : List (String × AgentCapability)) (s : FlowStep) : Prop :=
  s.step_type = "message" ∨ s.step_type = "memory_query" ∨
  s.step_type = "condition" ∨
  (s.step_type = "input_collection" ∧
    s.data.varname.getD "user_input" ≠ "current_step" ∧
    s.data.varname.getD "user_input" ≠ "flow_start_time") ∨
  (s.step_type = "agent_call" ∧
    ∃ aid, s.data.agent_id = some aid ∧ aid ≠ "" ∧
      (alistLookup aid agents).isSome)

/-! ### Concrete instances used by witnesses and counterexamples -/

/-- A freshly initialised adapter state with the default configuration
(`min_success_score = 0.7`, `pattern_decay_days = 30`) and nothing
loaded from disk. -/
def freshState : VannaState :=
  { min_success_score := 7/10, pattern_decay_days := 30, patterns := [],
    feedback_records := [], fittedCorpus := none, patternVectors := none }

/-- A text-similarity kernel that judges every pair of texts identical. -/
def simOne : String → String → ℚ := fun _ _ => 1

/-- A text-similarity kernel that puts every pair of texts exactly at
the 0.8 boundary. -/
def simBoundary : String → String → ℚ := fun _ _ => 4/5

/-- Pattern `A` of the retrieval misalignment scenario (type `a`,
context `x`). -/
def patA : LearningPattern :=
  { id := "A", pattern_type := "a", input_context := "x",
    successful_output := "oa", success_score := 1, brain_region := "R",
    metadata := [], created_at := 0, usage_count := 1, last_used := none,
    effectiveness_score := 0 }

/-- Pattern `B` of the retrieval misalignment scenario (type `b`,
context `y` — the context the query matches). -/
def patB : LearningPattern :=
  { id := "B", pattern_type := "b", input_context := "y",
    successful_output := "ob", success_score := 1, brain_region := "R",
    metadata := [], created_at := 0, usage_count := 1, last_used := none,
    effectiveness_score := 0 }

/-- Pattern `C` of the retrieval misalignment scenario (type `b`,
context `z`). -/
def patC : LearningPattern :=
  { id := "C", pattern_type := "b", input_context := "z",
    successful_output := "oc", success_score := 1, brain_region := "R",
    metadata := [], created_at := 0, usage_count := 1, last_used := none,
    effectiveness_score := 0 }

/-- Store holding `A`, `B`, `C` with a freshly rebuilt vector index
(one row per pattern, in store order). -/
def misalignedStore : VannaState :=
  { min_success_score := 7/10, pattern_decay_days := 30,
    patterns := [patA, patB, patC], feedback_records := [],
    fittedCorpus := some ["x", "y", "z"],
    patternVectors := some ["x", "y", "z"] }

/-- Query similarity for the misalignment scenario: the query matches
context `y` (pattern `B`) perfectly and nothing else. -/
def qsimY : String → ℚ := fun t => if t = "y" then 1 else 0

/-- First pattern of the tie-break scenario: inserted first, rarely
used. -/
def tieP1 : LearningPattern :=
  { id := "P1", pattern_type := "t", input_context := "x",
    successful_output := "o1", success_score := 1, brain_region := "R",
    metadata := [], created_at := 0, usage_count := 1, last_used := none,
    effectiveness_score := 1/2 }

/-- Second pattern of the tie-break scenario: inserted second, heavily
used. -/
def tieP2 : LearningPattern :=
  { id := "P2", pattern_type := "t", input_context := "y",
    successful_output := "o2", success_score := 1, brain_region := "R",
    metadata := [], created_at := 0, usage_count := 5, last_used := none,
    effectiveness_score := 1/2 }

/-- Store holding the two tie-break patterns with a rebuilt index. -/
def tieStore : VannaState :=
  { min_success_score := 7/10, pattern_decay_days := 30,
    patterns := [tieP1, tieP2], feedback_records := [],
    fittedCorpus := some ["x", "y"], patternVectors := some ["x", "y"] }

/-- Query similarity for the tie-break scenario: both contexts score
one half, so both combined scores are equal. -/
def qsimHalf : String → ℚ := fun _ => 1/2

/-- Stale pattern of the cleanup scenario: created `decay_days + 1` days
before the cleanup, ineffective, rarely used. -/
def stalePat : LearningPattern :=
  { id := "stale", pattern_type := "t", input_context := "x",
    successful_output := "o", success_score := 1, brain_region := "R",
    metadata := [], created_at := 0, usage_count := 1, last_used := none,
    effectiveness_score := 2/5 }

/-- Heavily used pattern of the cleanup scenario: identical to
`stalePat` except for its usage count. -/
def usedPat : LearningPattern :=
  { id := "used", pattern_type := "t", input_context := "y",
    successful_output := "o", success_score := 1, brain_region := "R",
    metadata := [], created_at := 0, usage_count := 5, last_used := none,
    effectiveness_score := 2/5 }

/-- Store for the cleanup boundary scenario (cleanup runs at time
`31`, i.e. both patterns are `decay_days + 1 = 31` days old). -/
def cleanupStore : VannaState :=
  { min_success_score := 7/10, pattern_decay_days := 30,
    patterns := [stalePat, usedPat], feedback_records := [],
    fittedCorpus := some ["x", "y"], patternVectors := some ["x", "y"] }

/-- A stored pattern with a perfect effectiveness score, used by the
feedback-bounds witness. -/
def fbPat : LearningPattern :=
  { id := "fb", pattern_type := "t", input_context := "x",
    successful_output := "o", success_score := 1, brain_region := "R",
    metadata := [], created_at := 0, usage_count := 1, last_used := none,
    effectiveness_score := 1 }

/-- Store holding `fbPat` only. -/
def fbStore : VannaState :=
  { min_success_score := 7/10, pattern_decay_days := 30,
    patterns := [fbPat], feedback_records := [],
    fittedCorpus := some ["x"], patternVectors := some ["x"] }

/-- A freshly created session context (as built by `start_conversation`
for an unclassified first message, before any history is appended). -/
def emptyCtx : ConversationContext :=
  { session_id := "s", user_id := "u", current_state := .listening,
    current_flow := none, flow_type := none, brain_region := "FRONTAL_LOBE",
    memory_context := [], agent_context := [], flow_variables := [],
    conversation_history := [], created_at := 0, updated_at := 0,
    metadata := [] }

/-- Manager state after starting a conversation with the message
`"what"` (which classifies to the default brain region and will select
the Simple Q&A flow). -/
def c2mgr : RasaManager :=
  (start_conversation (initManager 50) "u1" "what" none "s1" 0).2

/-- The session context created by `c2mgr`'s `start_conversation`. -/
def c2ctx : ConversationContext :=
  (start_conversation (initManager 50) "u1" "what" none "s1" 0).1

/-- Invariant tying the manager state after some `process_message`
calls back to the initial manager `mgr0`: the flow / agent tables and
the history bound are untouched, and the session `sid` exists with its
original brain region, with `current_step = j` and the recorded flow
start time `t0`. -/
def sessionInv (mgr0 mgr : RasaManager) (sid r0 : String) (t0 : ℚ)
    (j : Int) : Prop :=
  mgr.flows = mgr0.flows ∧ mgr.agents = mgr0.agents ∧
  mgr.max_conversation_history = mgr0.max_conversation_history ∧
  ∃ ctx, alistLookup sid mgr.sessions = some ctx ∧
    ctx.brain_region = r0 ∧
    fvLookup "current_step" ctx.flow_variables = some (.int j) ∧
    fvLookup "flow_start_time" ctx.flow_variables = some (.rat t0)

/-- Every pattern in `l` that carries id `i` has its effectiveness
score inside `[0,1]`. -/
def effBoundedAt (i : String) (l : List LearningPattern) : Prop :=
  ∀ q ∈ l, q.id = i →
    0 ≤ q.effectiveness_score ∧ q.effectiveness_score ≤ 1

/-! ### Shared proof helpers -/

/-- Keeping the last `m` entries of a list, as an unconditional drop. -/
def dropClamp {α : Type} (m : Nat) (l : List α) : List α :=
  l.drop (l.length - m)

theorem dropClamp_of_le {α : Type} {m : Nat} {l : List α}
    (h : l.length ≤ m) : dropClamp m l = l := by
  unfold dropClamp
  have : l.length - m = 0 := by omega
  simp [this]

theorem ifClamp_eq_dropClamp {α : Type} (m : Nat) (l : List α) :
    (if l.length > m then l.drop (l.length - m) else l) = dropClamp m l := by
  by_cases h : l.length > m
  · simp [h, dropClamp]
  · simp only [h, if_false]
    rw [dropClamp_of_le (by omega)]

theorem length_dropClamp {α : Type} (m : Nat) (l : List α) :
    (dropClamp m l).length = min m l.length := by
  simp [dropClamp]; omega

theorem dropClamp_append_dropClamp {α : Type} (m : Nat) (l e : List α) :
    dropClamp m (dropClamp m l ++ e) = dropClamp m (l ++ e) := by
  rcases le_or_lt l.length m with h | h
  · rw [dropClamp_of_le h]
  · have h3 : l.length - m ≤ l.length := by omega
    have hA : (List.drop (l.length - m) l).length = m := by
      simp [List.length_drop]; omega
    unfold dropClamp
    rw [List.length_append, List.length_append, hA]
    rw [show m + e.length - m = e.length by omega]
    rw [show l.length + e.length - m = (l.length - m) + e.length by omega]
    rw [← List.drop_drop, List.drop_append_of_le_length h3]

theorem add_to_conversation_history_spec (maxH : Nat)
    (ctx : ConversationContext) (role content : String) (now : ℚ) :
    (add_to_conversation_history maxH ctx role content now).conversation_history
      = dropClamp maxH (ctx.conversation_history ++
          [{ role := role, content := content, timestamp := now,
             brain_region := ctx.brain_region }]) ∧
    (add_to_conversation_history maxH ctx role content now).brain_region
      = ctx.brain_region := by
  unfold add_to_conversation_history
  exact ⟨ifClamp_eq_dropClamp _ _, rfl⟩

theorem appendMessages_spec (maxH : Nat) (msgs : List (String × String × ℚ)) :
    ∀ ctx : ConversationContext, ctx.conversation_history.length ≤ maxH →
      (appendMessages maxH ctx msgs).conversation_history
        = dropClamp maxH (ctx.conversation_history ++
            msgs.map (mkHistoryEntry ctx.brain_region)) ∧
      (appendMessages maxH ctx msgs).brain_region = ctx.brain_region := by
  induction msgs with
  | nil =>
      intro ctx hlen
      refine ⟨?_, rfl⟩
      simp only [appendMessages, List.foldl_nil, List.map_nil, List.append_nil]
      rw [dropClamp_of_le hlen]
  | cons m ms ih =>
      intro ctx hlen
      have hstep : appendMessages maxH ctx (m :: ms)
          = appendMessages maxH
              (add_to_conversation_history maxH ctx m.1 m.2.1 m.2.2) ms := by
        simp [appendMessages]
      obtain ⟨haddh, haddr⟩ :=
        add_to_conversation_history_spec maxH ctx m.1 m.2.1 m.2.2
      have hlen' :
          (add_to_conversation_history maxH ctx m.1 m.2.1 m.2.2).conversation_history.length
            ≤ maxH := by
        rw [haddh, length_dropClamp]; omega
      obtain ⟨ih1, ih2⟩ :=
        ih (add_to_conversation_history maxH ctx m.1 m.2.1 m.2.2) hlen'
      refine ⟨?_, by rw [hstep, ih2, haddr]⟩
      rw [hstep, ih1, haddr, haddh, dropClamp_append_dropClamp,
        List.append_assoc]
      rfl

/-! ### Claim C5: significance gate -/

/-- C5: every `learn_from_interaction` call whose `success_score` is
strictly below the configured `min_success_score` returns no pattern id
and leaves the whole adapter state (in particular the pattern store)
unchanged. -/
theorem c5_significance_gate (textSim : String → String → ℚ) (now : ℚ)
    (newId input_context output_result : String) (success_score : ℚ)
    (brain_region pattern_type : String) (metadata : List (String × String))
    (st : VannaState) (h : success_score < st.min_success_score) :
    learn_from_interaction textSim now newId input_context output_result
      success_score brain_region pattern_type metadata st = (none, st) := by
  simp [learn_from_interaction, h]

theorem ratHalfLtSevenTenths : (1 : ℚ)/2 < 7/10 := by norm_num

/-- Witness for C5 at the spec's own example: score `0.5` against the
default threshold `0.7` on a fresh store. -/
theorem c5_significance_gate_witness :
    (1 : ℚ)/2 < freshState.min_success_score ∧
    learn_from_interaction simOne 0 "p1" "weather" "fetched" (1/2)
      "CEREBELLUM" "tool_usage" [] freshState = (none, freshState) :=
  ⟨ratHalfLtSevenTenths,
    c5_significance_gate simOne 0 "p1" "weather" "fetched" (1/2) "CEREBELLUM"
      "tool_usage" [] freshState ratHalfLtSevenTenths⟩

/-! ### Claim C8: bounded conversation history -/

/-- C8: appending `max_conversation_history + k` messages (`k > 0`) to a
session that starts with an empty history leaves exactly the most
recent `max_conversation_history` entries, in their original append
order (the first `k` entries are dropped). -/
theorem c8_history_bound (maxH : Nat) (ctx : ConversationContext)
    (msgs : List (String × String × ℚ)) (k : Nat)
    (hempty : ctx.conversation_history = [])
    (hlen : msgs.length = maxH + k) (hk : 0 < k) :
    (appendMessages maxH ctx msgs).conversation_history
      = (msgs.map (mkHistoryEntry ctx.brain_region)).drop k ∧
    (appendMessages maxH ctx msgs).conversation_history.length = maxH := by
  obtain ⟨h1, _⟩ := appendMessages_spec maxH msgs ctx (by rw [hempty]; simp)
  rw [h1, hempty, List.nil_append]
  constructor
  · unfold dropClamp
    rw [List.length_map, hlen]
    congr 1
    omega
  · rw [length_dropClamp, List.length_map, hlen]
    omega

/-- Witness for C8: three messages into a session bounded at two. -/
theorem c8_history_bound_witness :
    emptyCtx.conversation_history = [] ∧
    ([("user", "a", (0:ℚ)), ("user", "b", 1), ("user", "c", 2)].length = 2 + 1) ∧
    (appendMessages 2 emptyCtx [("user", "a", 0), ("user", "b", 1), ("user", "c", 2)]).conversation_history
      = ([("user", "a", (0:ℚ)), ("user", "b", 1), ("user", "c", 2)].map
          (mkHistoryEntry emptyCtx.brain_region)).drop 1 ∧
    (appendMessages 2 emptyCtx [("user", "a", 0), ("user", "b", 1), ("user", "c", 2)]).conversation_history.length = 2 :=
  ⟨rfl, rfl,
    (c8_history_bound 2 emptyCtx
      [("user", "a", 0), ("user", "b", 1), ("user", "c", 2)] 1 rfl rfl
      (by decide)).1,
    (c8_history_bound 2 emptyCtx
      [("user", "a", 0), ("user", "b", 1), ("user", "c", 2)] 1 rfl rfl
      (by decide)).2⟩

/-! ### Claim C9: cleanup boundary -/

/-- C9: `cleanup_old_patterns` removes exactly the patterns that are
older than `pattern_decay_days` AND have `effectiveness_score < 0.5`
AND `usage_count < 3` (for stores with distinct pattern ids, as Python's
id-keyed dict guarantees).  In particular a pattern aged
`decay_days + 1` with effectiveness `0.4` and usage `1` is removed while
an otherwise identical pattern with usage `5` is retained (see the
witness). -/
theorem c9_cleanup_boundary (now : ℚ) (st : VannaState)
    (hnodup : (st.patterns.map (·.id)).Nodup) (p : LearningPattern) :
    p ∈ (cleanup_old_patterns now st).patterns ↔
      p ∈ st.patterns ∧ ¬ staleCondition now st p := by
  have hpat : (cleanup_old_patterns now st).patterns
      = st.patterns.filter (fun q =>
          decide (q.id ∉ ((st.patterns.filter
            (fun r => decide (staleCondition now st r))).map (·.id)))) := by
    simp only [cleanup_old_patterns, update_vectorizer]
    split
    · rfl
    · split <;> rfl
  rw [hpat, List.mem_filter]
  simp only [decide_eq_true_eq]
  constructor
  · rintro ⟨hmem, hnot⟩
    refine ⟨hmem, fun hstale => hnot ?_⟩
    exact List.mem_map.mpr
      ⟨p, List.mem_filter.mpr ⟨hmem, by simpa using hstale⟩, rfl⟩
  · rintro ⟨hmem, hstale⟩
    refine ⟨hmem, fun hid => hstale ?_⟩
    obtain ⟨q, hq, hqid⟩ := List.mem_map.mp hid
    obtain ⟨hqmem, hqstale⟩ := List.mem_filter.mp hq
    have : q = p := List.inj_on_of_nodup_map hnodup hqmem hmem hqid
    subst this
    simpa using hqstale

theorem cleanupStoreNodup : (cleanupStore.patterns.map (·.id)).Nodup := by
  decide

/-- Witness for C9 at the spec's boundary scenario: at time `31` with
`pattern_decay_days = 30`, both patterns are 31 days old with
effectiveness `0.4`; the one with usage `1` is removed, the one with
usage `5` is retained. -/
theorem c9_cleanup_boundary_witness :
    (cleanupStore.patterns.map (·.id)).Nodup ∧
    (stalePat ∈ (cleanup_old_patterns 31 cleanupStore).patterns ↔
      stalePat ∈ cleanupStore.patterns ∧ ¬ staleCondition 31 cleanupStore stalePat) ∧
    (usedPat ∈ (cleanup_old_patterns 31 cleanupStore).patterns ↔
      usedPat ∈ cleanupStore.patterns ∧ ¬ staleCondition 31 cleanupStore usedPat) :=
  ⟨cleanupStoreNodup,
    c9_cleanup_boundary 31 cleanupStore cleanupStoreNodup stalePat,
    c9_cleanup_boundary 31 cleanupStore cleanupStoreNodup usedPat⟩

/-! ### Claim C6: effectiveness score bounds under feedback -/

theorem unitBlend (e x a b : ℚ) (he : 0 ≤ e) (he' : e ≤ 1) (hx : 0 ≤ x)
    (hx' : x ≤ 1) (ha : 0 ≤ a) (hb : 0 ≤ b) (hab : a + b = 1) :
    0 ≤ e * a + x * b ∧ e * a + x * b ≤ 1 := by
  constructor <;> nlinarith

theorem effBoundedAt_map (i : String) (f : LearningPattern → LearningPattern)
    (hid : ∀ q, (f q).id = q.id)
    (hf : ∀ q, q.id = i → 0 ≤ q.effectiveness_score →
      q.effectiveness_score ≤ 1 →
      0 ≤ (f q).effectiveness_score ∧ (f q).effectiveness_score ≤ 1)
    (l : List LearningPattern) (hl : effBoundedAt i l) :
    effBoundedAt i (l.map f) := by
  intro q hq hqi
  obtain ⟨r, hr, hrf⟩ := List.mem_map.mp hq
  subst hrf
  have hri : r.id = i := by rw [← hid r]; exact hqi
  obtain ⟨hr0, hr1⟩ := hl r hr hri
  exact hf r hri hr0 hr1

theorem effBoundedAt_dictInsert (i : String) (pnew : LearningPattern)
    (hnew : 0 ≤ pnew.effectiveness_score ∧ pnew.effectiveness_score ≤ 1)
    (l : List LearningPattern) (hl : effBoundedAt i l) :
    effBoundedAt i (dictInsertPattern pnew l) := by
  intro q hq hqi
  unfold dictInsertPattern at hq
  split at hq
  · obtain ⟨r, hr, hrf⟩ := List.mem_map.mp hq
    by_cases h : r.id = pnew.id
    · simp only [h, if_pos] at hrf
      subst hrf; exact hnew
    · simp only [h, if_neg, if_false] at hrf
      subst hrf; exact hl r hr hqi
  · rcases List.mem_append.mp hq with h | h
    · exact hl q h hqi
    · rw [List.mem_singleton.mp h]; exact hnew

theorem update_vectorizer_patterns (st : VannaState) :
    (update_vectorizer st).patterns = st.patterns := by
  unfold update_vectorizer; split <;> rfl

theorem learn_preserves_effBoundedAt (i : String)
    (textSim : String → String → ℚ) (now : ℚ) (newId ic out : String)
    (s : ℚ) (hs0 : 0 ≤ s) (hs1 : s ≤ 1) (region ptype : String)
    (md : List (String × String)) (st : VannaState)
    (h : effBoundedAt i st.patterns) :
    effBoundedAt i
      ((learn_from_interaction textSim now newId ic out s region ptype md
        st).2.patterns) := by
  unfold learn_from_interaction
  split
  · exact h
  · cases hfind : find_similar_pattern textSim st ic ptype region with
    | some sp =>
        simp only [hfind]
        refine effBoundedAt_map i _ (fun q => ?_) (fun q hqi hq0 hq1 => ?_) st.patterns h
        · by_cases hq : q.id = sp.id <;> simp [hq]
        · by_cases hq : q.id = sp.id
          · simp only [hq, if_pos]
            exact unitBlend _ _ _ _ hq0 hq1 hs0 hs1 (by norm_num) (by norm_num)
              (by norm_num)
          · simp only [hq, if_neg, if_false]
            exact ⟨hq0, hq1⟩
    | none =>
        simp only [hfind, update_vectorizer_patterns]
        exact effBoundedAt_dictInsert i _ ⟨hs0, hs1⟩ st.patterns h

theorem effBoundedAt_of_nodup (st : VannaState)
    (hnodup : (st.patterns.map (·.id)).Nodup) (p : LearningPattern)
    (hp : p ∈ st.patterns) (he0 : 0 ≤ p.effectiveness_score)
    (he1 : p.effectiveness_score ≤ 1) : effBoundedAt p.id st.patterns := by
  intro q hq hqi
  have : q = p := List.inj_on_of_nodup_map hnodup hq hp hqi
  subst this
  exact ⟨he0, he1⟩

/-- C6: for every stored pattern whose effectiveness score lies in
`[0,1]` before a `record_feedback` call with `feedback_score ∈ [-1,1]`,
every pattern carrying that id after the call (including through the
corrective re-learn the call may trigger) still has effectiveness in
`[0,1]`. -/
theorem c6_feedback_score_bounds (textSim : String → String → ℚ) (now : ℚ)
    (fid cid pattern_id user_id feedback_type : String)
    (feedback_score : ℚ) (original_output : String)
    (corrected_output : Option String) (fctx : List (String × String))
    (st : VannaState) (hnodup : (st.patterns.map (·.id)).Nodup)
    (p : LearningPattern) (hp : p ∈ st.patterns)
    (he0 : 0 ≤ p.effectiveness_score) (he1 : p.effectiveness_score ≤ 1)
    (hf0 : -1 ≤ feedback_score) (hf1 : feedback_score ≤ 1) :
    ∀ q ∈ ((record_feedback textSim now fid cid pattern_id user_id
        feedback_type feedback_score original_output corrected_output fctx
        st).2).patterns,
      q.id = p.id →
        0 ≤ q.effectiveness_score ∧ q.effectiveness_score ≤ 1 := by
  have h0 : effBoundedAt p.id st.patterns :=
    effBoundedAt_of_nodup st hnodup p hp he0 he1
  have hblend1 : effBoundedAt p.id
      (st.patterns.map fun q =>
        if q.id = pattern_id then
          { q with
            effectiveness_score :=
              q.effectiveness_score * (8/10) + (feedback_score + 1)/2 * (2/10) }
        else q) := by
    refine effBoundedAt_map _ _ (fun q => ?_) (fun q hqi hq0 hq1 => ?_) _ h0
    · by_cases hq : q.id = pattern_id <;> simp [hq]
    · by_cases hq : q.id = pattern_id
      · simp only [hq, if_pos]
        exact unitBlend _ _ _ _ hq0 hq1 (by linarith) (by linarith)
          (by norm_num) (by norm_num) (by norm_num)
      · simp only [hq, if_neg, if_false]
        exact ⟨hq0, hq1⟩
  unfold record_feedback
  cases hfind : List.find? (fun q => q.id == pattern_id) st.patterns with
  | none => simpa only [hfind] using h0
  | some pat =>
      simp only [hfind]
      cases corrected_output with
      | none => exact hblend1
      | some corr =>
          by_cases hc : corr ≠ "" ∧ 0 < feedback_score
          · simp only [if_pos hc]
            refine learn_preserves_effBoundedAt p.id textSim now cid
              pat.input_context corr (min 1 (feedback_score + 1/2)) ?_ ?_
              pat.brain_region pat.pattern_type _ _ ?_
            · exact le_min (by norm_num) (by linarith [hc.2])
            · exact min_le_left _ _
            · exact hblend1
          · simp only [if_neg hc]
            exact hblend1

theorem ratNegOneLeOne : (-1 : ℚ) ≤ 1 := by norm_num

theorem fbStoreNodup : (fbStore.patterns.map (·.id)).Nodup := by decide

/-- Witness for C6 at the extreme `feedback_score = -1` on a pattern
with effectiveness `1`. -/
theorem c6_feedback_score_bounds_witness :
    (fbStore.patterns.map (·.id)).Nodup ∧
    fbPat ∈ fbStore.patterns ∧
    ((0:ℚ) ≤ fbPat.effectiveness_score ∧ fbPat.effectiveness_score ≤ 1) ∧
    ((-1:ℚ) ≤ -1 ∧ (-1:ℚ) ≤ 1) ∧
    (∀ q ∈ ((record_feedback simOne 0 "f1" "c1" "fb" "u" "negative" (-1)
        "orig" none [] fbStore).2).patterns,
      q.id = fbPat.id →
        0 ≤ q.effectiveness_score ∧ q.effectiveness_score ≤ 1) :=
  ⟨fbStoreNodup, List.mem_cons_self fbPat [],
    ⟨zero_le_one, le_refl 1⟩, ⟨le_refl (-1), ratNegOneLeOne⟩,
    c6_feedback_score_bounds simOne 0 "f1" "c1" "fb" "u" "negative" (-1)
      "orig" none [] fbStore fbStoreNodup fbPat (List.mem_cons_self fbPat [])
      zero_le_one (le_refl 1) (le_refl (-1)) ratNegOneLeOne⟩

/-! ### Claim C3: feedback for a missing pattern id -/

/-- Counterexample to C3 as stated: recording feedback against a
pattern id that no stored pattern carries is *not* a no-op — the
feedback record is appended to the store (with a dangling
`pattern_id`), and a normal feedback id is returned instead of any
error indication. -/
theorem c3_counterexample :
    (record_feedback simOne 0 "f1" "c1" "missing" "u" "positive" 1 "orig"
      none [] freshState).1 = some "f1" ∧
    ((record_feedback simOne 0 "f1" "c1" "missing" "u" "positive" 1 "orig"
      none [] freshState).2).feedback_records.length = 1 ∧
    ((record_feedback simOne 0 "f1" "c1" "missing" "u" "positive" 1 "orig"
      none [] freshState).2).patterns = [] :=
  ⟨rfl, rfl, rfl⟩

/-- C3 amended: when `record_feedback` is called with a `pattern_id`
that no stored pattern carries (and a fresh feedback id, as uuid4
guarantees), the feedback record *is* appended — dangling, as the data
model allows — no pattern is touched, and the ordinary feedback id is
returned; no error is surfaced. -/
theorem c3_dangling_feedback (textSim : String → String → ℚ) (now : ℚ)
    (fid cid pattern_id user_id feedback_type : String)
    (feedback_score : ℚ) (original_output : String)
    (corrected_output : Option String) (fctx : List (String × String))
    (st : VannaState)
    (hmiss : ∀ q ∈ st.patterns, q.id ≠ pattern_id)
    (hfree : ∀ r ∈ st.feedback_records, r.id ≠ fid) :
    record_feedback textSim now fid cid pattern_id user_id feedback_type
      feedback_score original_output corrected_output fctx st =
    (some fid,
      { st with
        feedback_records := st.feedback_records ++
          [{ id := fid, pattern_id := pattern_id, user_id := user_id,
             feedback_type := feedback_type,
             original_output := original_output,
             corrected_output := corrected_output,
             feedback_score := feedback_score, timestamp := now,
             context := fctx }] }) := by
  have h1 : st.patterns.find? (fun q => q.id == pattern_id) = none :=
    List.find?_eq_none.mpr (fun x hx => by simpa using hmiss x hx)
  have h2 : st.feedback_records.any (fun q => q.id == fid) = false :=
    List.any_eq_false.mpr (fun x hx => by simpa using hfree x hx)
  unfold record_feedback dictInsertFeedback
  simp only [h1, h2]
  rfl

/-- Witness for C3 (amended) on a fresh store. -/
theorem c3_dangling_feedback_witness :
    (∀ q ∈ freshState.patterns, q.id ≠ "missing") ∧
    (∀ r ∈ freshState.feedback_records, r.id ≠ "f1") ∧
    record_feedback simOne 0 "f1" "c1" "missing" "u" "positive" 1 "orig"
      none [] freshState =
    (some "f1",
      { freshState with
        feedback_records :=
          [{ id := "f1", pattern_id := "missing", user_id := "u",
             feedback_type := "positive", original_output := "orig",
             corrected_output := none, feedback_score := 1, timestamp := 0,
             context := [] }] }) :=
  ⟨fun q h => absurd h (List.not_mem_nil q),
   fun r h => absurd h (List.not_mem_nil r),
   c3_dangling_feedback simOne 0 "f1" "c1" "missing" "u" "positive" 1 "orig"
     none [] freshState (fun q h => absurd h (List.not_mem_nil q))
     (fun r h => absurd h (List.not_mem_nil r))⟩

/-! ### Claim C4: near-duplicate merge -/

/-- Counterexample to C4 as stated: at text similarity *exactly* `0.8`
(which satisfies the claim's "at least 0.8"), `_find_similar_pattern`'s
strict `> 0.8` test fails, so the second interaction creates a second
pattern instead of merging — the store ends with two patterns of usage
count 1, not one of usage count 2. -/
theorem c4_counterexample :
    simBoundary "ctx two" "ctx one" = 8/10 ∧
    ((learn_from_interaction simBoundary 1 "p2" "ctx two" "out2" 1 "R" "T"
        []
        (learn_from_interaction simBoundary 0 "p1" "ctx one" "out1" 1 "R"
          "T" [] freshState).2).2).patterns.map
      (fun p => (p.id, p.usage_count)) = [("p1", 1), ("p2", 1)] := by
  constructor
  · norm_num [simBoundary]
  · norm_num [learn_from_interaction, find_similar_pattern, freshState,
      simBoundary, update_vectorizer, dictInsertPattern]
    simp

/-- C4 amended: starting from an empty store, two
`learn_from_interaction` calls with the same `pattern_type` and
`brain_region`, both passing the significance gate, whose
`input_context`s have text similarity *strictly greater than* `0.8`,
leave exactly one stored pattern, with `usage_count = 2`. -/
theorem c4_near_duplicate_merge (textSim : String → String → ℚ)
    (now1 now2 : ℚ) (id1 id2 ic1 ic2 out1 out2 : String) (s1 s2 : ℚ)
    (region ptype : String) (md1 md2 : List (String × String))
    (st : VannaState) (hempty : st.patterns = [])
    (h1 : ¬ s1 < st.min_success_score) (h2 : ¬ s2 < st.min_success_score)
    (hsim : (8:ℚ)/10 < textSim ic2 ic1) :
    ∃ q,
      ((learn_from_interaction textSim now2 id2 ic2 out2 s2 region ptype md2
        (learn_from_interaction textSim now1 id1 ic1 out1 s1 region ptype
          md1 st).2).2).patterns = [q] ∧
      q.usage_count = 2 ∧ q.id = id1 := by
  obtain ⟨mn, dd, pats, fb, fc, pv⟩ := st
  simp only at hempty h1 h2
  subst hempty
  refine ⟨⟨id1, ptype, ic1, out1, s1, region, md1, now1, 2, some now2,
    s1 * (9/10) + s2 * (1/10)⟩, ?_, rfl, rfl⟩
  simp only [learn_from_interaction, find_similar_pattern, if_neg h1,
    if_neg h2, List.find?_nil, dictInsertPattern, List.any_nil,
    Bool.false_eq_true, if_false, List.nil_append, update_vectorizer,
    List.map_cons, List.map_nil]
  simp [List.find?_cons, hsim, h2]

theorem ratOneNotLtSevenTenths : ¬ (1 : ℚ) < 7/10 := by norm_num

theorem ratEightTenthsLtOne : (8 : ℚ)/10 < 1 := by norm_num

/-- Witness for C4 (amended): two perfect-similarity interactions on a
fresh store with the default threshold. -/
theorem c4_near_duplicate_merge_witness :
    freshState.patterns = [] ∧
    ¬ (1:ℚ) < freshState.min_success_score ∧
    (8:ℚ)/10 < simOne "ctx two" "ctx one" ∧
    (∃ q,
      ((learn_from_interaction simOne 1 "p2" "ctx two" "out2" 1 "R" "T" []
        (learn_from_interaction simOne 0 "p1" "ctx one" "out1" 1 "R" "T" []
          freshState).2).2).patterns = [q] ∧
      q.usage_count = 2 ∧ q.id = "p1") :=
  ⟨rfl, ratOneNotLtSevenTenths, ratEightTenthsLtOne,
    c4_near_duplicate_merge simOne 0 1 "p1" "p2" "ctx one" "ctx two" "out1"
      "out2" 1 1 "R" "T" [] [] freshState rfl ratOneNotLtSevenTenths
      ratOneNotLtSevenTenths ratEightTenthsLtOne⟩

/-! ### Claim C10: frame effect of the learn-update path -/

/-- C10: when `learn_from_interaction` passes the gate and finds a
similar pattern, the update is confined to that one pattern's
`usage_count`, `last_used` and `effectiveness_score`: the feedback
store, the fitted corpus and the pattern-vector matrix are untouched
(no index rebuild), every other pattern survives unchanged, the store
size is unchanged, and the matching pattern keeps all its other
fields. -/
theorem c10_update_frame (textSim : String → String → ℚ) (now : ℚ)
    (newId ic out : String) (score : ℚ) (region ptype : String)
    (md : List (String × String)) (st : VannaState) (sp : LearningPattern)
    (hnodup : (st.patterns.map (·.id)).Nodup)
    (hgate : ¬ score < st.min_success_score)
    (hfind : find_similar_pattern textSim st ic ptype region = some sp) :
    (learn_from_interaction textSim now newId ic out score region ptype md
      st).1 = some sp.id ∧
    (learn_from_interaction textSim now newId ic out score region ptype md
      st).2.feedback_records = st.feedback_records ∧
    (learn_from_interaction textSim now newId ic out score region ptype md
      st).2.fittedCorpus = st.fittedCorpus ∧
    (learn_from_interaction textSim now newId ic out score region ptype md
      st).2.patternVectors = st.patternVectors ∧
    (learn_from_interaction textSim now newId ic out score region ptype md
      st).2.patterns.length = st.patterns.length ∧
    (∀ q ∈ st.patterns, q.id ≠ sp.id →
      q ∈ (learn_from_interaction textSim now newId ic out score region
        ptype md st).2.patterns) ∧
    (∀ q' ∈ (learn_from_interaction textSim now newId ic out score region
        ptype md st).2.patterns, q'.id = sp.id →
      q'.pattern_type = sp.pattern_type ∧
      q'.input_context = sp.input_context ∧
      q'.successful_output = sp.successful_output ∧
      q'.success_score = sp.success_score ∧
      q'.brain_region = sp.brain_region ∧ q'.metadata = sp.metadata ∧
      q'.created_at = sp.created_at ∧
      q'.usage_count = sp.usage_count + 1 ∧ q'.last_used = some now ∧
      q'.effectiveness_score =
        sp.effectiveness_score * (9/10) + score * (1/10)) := by
  have hspmem : sp ∈ st.patterns := by
    have := List.mem_of_find?_eq_some (by simpa [find_similar_pattern] using hfind)
    exact this
  simp only [learn_from_interaction, if_neg hgate, hfind]
  refine ⟨by trivial, by trivial, by trivial, by trivial, by simp, ?_, ?_⟩
  · intro q hq hqne
    exact List.mem_map.mpr ⟨q, hq, by simp [hqne]⟩
  · intro q' hq' hq'id
    obtain ⟨r, hr, hrf⟩ := List.mem_map.mp hq'
    by_cases hcase : r.id = sp.id
    · have hrsp : r = sp := List.inj_on_of_nodup_map hnodup hr hspmem hcase
      subst hrsp
      simp only [if_pos hcase] at hrf
      subst hrf
      simp
    · rw [if_neg hcase] at hrf
      subst hrf
      exact absurd hq'id hcase

theorem findSimFbStore :
    find_similar_pattern simOne fbStore "x" "t" "R" = some fbPat := by
  simp [find_similar_pattern, fbStore, fbPat, simOne]
  norm_num

/-- Witness for C10: updating the single stored pattern of `fbStore`
through a perfect-similarity re-learn. -/
theorem c10_update_frame_witness :
    (fbStore.patterns.map (·.id)).Nodup ∧
    ¬ (1:ℚ) < fbStore.min_success_score ∧
    find_similar_pattern simOne fbStore "x" "t" "R" = some fbPat ∧
    ((learn_from_interaction simOne 2 "new" "x" "out" 1 "R" "t" []
        fbStore).2.feedback_records = fbStore.feedback_records ∧
      (learn_from_interaction simOne 2 "new" "x" "out" 1 "R" "t" []
        fbStore).2.patternVectors = fbStore.patternVectors) :=
  ⟨fbStoreNodup, ratOneNotLtSevenTenths, findSimFbStore,
    ⟨(c10_update_frame simOne 2 "new" "x" "out" 1 "R" "t" [] fbStore fbPat
        fbStoreNodup ratOneNotLtSevenTenths findSimFbStore).2.1,
      (c10_update_frame simOne 2 "new" "x" "out" 1 "R" "t" [] fbStore fbPat
        fbStoreNodup ratOneNotLtSevenTenths findSimFbStore).2.2.2.1⟩⟩

theorem retrieve_vector_eq (qsim : String → ℚ) (query : String)
    (pt br : Option String) (limit : Nat) (st : VannaState)
    (texts : List String) (hvec : st.patternVectors = some texts)
    (hne : st.patterns ≠ []) (hcand : candidateFilter pt br st ≠ []) :
    retrieve_relevant_patterns qsim query pt br limit st
      = ((sortByScoreDesc
            (vectorScored qsim texts (candidateFilter pt br st))).take
          limit).map Prod.fst := by
  unfold retrieve_relevant_patterns
  rw [if_neg hne, if_neg hcand, hvec]

theorem misalignedCandidates :
    candidateFilter (some "b") none misalignedStore = [patB, patC] := by
  simp [candidateFilter, misalignedStore, filterOk, patA, patB, patC]

/-! ### Claim C1: retrieval scoring -/

/-- C1 fails on the code (recorded as a code bug): with a type filter
in effect, `retrieve_relevant_patterns` pairs `similarities[i]` — the
cosine row of the `i`-th pattern of the *whole store* — with the `i`-th
*filtered* candidate.  In a store `[A(type a, ctx x), B(type b, ctx y),
C(type b, ctx z)]` with a query that matches only `y`, filtering to
type `b` ranks `C` (which is credited with `B`'s similarity 1) above
`B` (credited with `A`'s similarity 0), although `B`'s own context is
the one the query matches and all effectiveness scores are equal. -/
theorem c1_retrieval_misalignment :
    retrieve_relevant_patterns qsimY "query" (some "b") none 5
      misalignedStore = [patC, patB] ∧
    qsimY patB.input_context = 1 ∧ qsimY patC.input_context = 0 ∧
    patB.effectiveness_score = patC.effectiveness_score := by
  refine ⟨?_, rfl, rfl, rfl⟩
  rw [retrieve_vector_eq qsimY "query" (some "b") none 5 misalignedStore
    ["x", "y", "z"] rfl (List.cons_ne_nil _ _)
    (by rw [misalignedCandidates]; exact List.cons_ne_nil _ _),
    misalignedCandidates]
  simp [vectorScored, qsimY, patB, patC, List.enum, List.enumFrom,
    List.filterMap_cons, List.getElem?_cons_zero, List.getElem?_cons_succ]
  norm_num [sortByScoreDesc, insertScoredDesc, patB, patC]

theorem tieStoreCandidates' : candidateFilter none none tieStore ≠ [] := by
  simp [candidateFilter, tieStore, filterOk]

/-! ### Claim C7: retrieval ranking and tie-breaking -/

/-- Counterexample to C7 as stated: two candidates with equal combined
scores are returned in insertion order (`P1` with usage 1 before `P2`
with usage 5), not in usage-count-descending order — the stable sort
never consults `usage_count`. -/
theorem c7_counterexample :
    retrieve_relevant_patterns qsimHalf "q" none none 5 tieStore
      = [tieP1, tieP2] ∧
    tieP1.usage_count < tieP2.usage_count ∧
    qsimHalf tieP1.input_context * (7/10) +
        tieP1.effectiveness_score * (3/10)
      = qsimHalf tieP2.input_context * (7/10) +
        tieP2.effectiveness_score * (3/10) := by
  refine ⟨?_, by decide, by norm_num [qsimHalf, tieP1, tieP2]⟩
  rw [retrieve_vector_eq qsimHalf "q" none none 5 tieStore ["x", "y"] rfl
    (List.cons_ne_nil _ _) tieStoreCandidates']
  simp [candidateFilter, tieStore, filterOk, vectorScored, qsimHalf,
    tieP1, tieP2, List.enum, List.enumFrom, List.filterMap_cons,
    List.getElem?_cons_zero, List.getElem?_cons_succ]
  norm_num [sortByScoreDesc, insertScoredDesc, tieP1, tieP2]

theorem insertScoredDesc_mem (x z : LearningPattern × ℚ)
    (l : List (LearningPattern × ℚ)) :
    z ∈ insertScoredDesc x l → z = x ∨ z ∈ l := by
  induction l with
  | nil => intro h; simpa [insertScoredDesc] using h
  | cons y ys ih =>
      intro h
      unfold insertScoredDesc at h
      by_cases hc : y.2 < x.2
      · rw [if_pos hc] at h
        rcases List.mem_cons.mp h with h1 | h1
        · exact Or.inl h1
        · exact Or.inr h1
      · rw [if_neg hc] at h
        rcases List.mem_cons.mp h with h1 | h1
        · exact Or.inr (by simp [h1])
        · rcases ih h1 with h2 | h2
          · exact Or.inl h2
          · exact Or.inr (List.mem_cons_of_mem _ h2)

theorem insertScoredDesc_sorted (x : LearningPattern × ℚ)
    (l : List (LearningPattern × ℚ))
    (hl : l.Pairwise (fun a b => b.2 ≤ a.2)) :
    (insertScoredDesc x l).Pairwise (fun a b => b.2 ≤ a.2) := by
  induction l with
  | nil => simp [insertScoredDesc]
  | cons y ys ih =>
      obtain ⟨hy, hys⟩ := List.pairwise_cons.mp hl
      unfold insertScoredDesc
      split
      · refine List.pairwise_cons.mpr ⟨?_, hl⟩
        intro z hz
        rcases List.mem_cons.mp hz with h | h
        · subst h; linarith
        · have := hy z h; linarith
      · refine List.pairwise_cons.mpr ⟨?_, ih hys⟩
        intro z hz
        rcases insertScoredDesc_mem x z ys hz with h | h
        · subst h; linarith
        · exact hy z h

theorem sortByScoreDesc_sorted (l : List (LearningPattern × ℚ)) :
    (sortByScoreDesc l).Pairwise (fun a b => b.2 ≤ a.2) := by
  have main : ∀ (l acc : List (LearningPattern × ℚ)),
      acc.Pairwise (fun a b => b.2 ≤ a.2) →
      (l.foldl (fun a x => insertScoredDesc x a) acc).Pairwise
        (fun a b => b.2 ≤ a.2) := by
    intro l
    induction l with
    | nil => intro acc h; simpa using h
    | cons y ys ih =>
        intro acc h
        exact ih _ (insertScoredDesc_sorted y acc h)
  exact main l [] (by simp)

/-- C7 amended: on the vectorized path, retrieval returns the scored
candidates sorted by non-increasing combined score and truncated to
`limit`; being a pure function of the store and query, repeated calls
return the same list — but ties are broken by the stable sort's
insertion order, not by `usage_count` (see the counterexample). -/
theorem c7_ranking_sorted (qsim : String → ℚ) (query : String)
    (pt br : Option String) (limit : Nat) (st : VannaState)
    (texts : List String) (hvec : st.patternVectors = some texts)
    (hne : st.patterns ≠ []) (hcand : candidateFilter pt br st ≠ []) :
    retrieve_relevant_patterns qsim query pt br limit st
      = ((sortByScoreDesc
            (vectorScored qsim texts (candidateFilter pt br st))).take
          limit).map Prod.fst ∧
    (sortByScoreDesc
        (vectorScored qsim texts (candidateFilter pt br st))).Pairwise
      (fun a b => b.2 ≤ a.2) := by
  exact ⟨retrieve_vector_eq qsim query pt br limit st texts hvec hne hcand,
    sortByScoreDesc_sorted _⟩

/-- Witness for C7 (amended) on the tie-break store. -/
theorem c7_ranking_sorted_witness :
    tieStore.patternVectors = some ["x", "y"] ∧
    tieStore.patterns ≠ [] ∧
    candidateFilter none none tieStore ≠ [] ∧
    (retrieve_relevant_patterns qsimHalf "q" none none 5 tieStore
      = ((sortByScoreDesc
            (vectorScored qsimHalf ["x", "y"]
              (candidateFilter none none tieStore))).take 5).map Prod.fst ∧
    (sortByScoreDesc
        (vectorScored qsimHalf ["x", "y"]
          (candidateFilter none none tieStore))).Pairwise
      (fun a b => b.2 ≤ a.2)) :=
  ⟨rfl, List.cons_ne_nil _ _, tieStoreCandidates',
    c7_ranking_sorted qsimHalf "q" none none 5 tieStore ["x", "y"] rfl
      (List.cons_ne_nil _ _) tieStoreCandidates'⟩

/-! ### Claim C2: flow completion -/

theorem alistLookup_nil {β : Type} (k : String) :
    alistLookup k ([] : List (String × β)) = none := rfl

theorem alistLookup_cons {β : Type} (k k' : String) (v : β)
    (l : List (String × β)) :
    alistLookup k ((k', v) :: l)
      = if k' = k then some v else alistLookup k l := by
  by_cases h : k' = k <;> simp [alistLookup, List.find?_cons, h]

theorem fvLookup_nil (k : String) : fvLookup k [] = none := rfl

theorem fvLookup_cons (k k' : String) (v : FVal)
    (l : List (String × FVal)) :
    fvLookup k ((k', v) :: l) = if k' = k then some v else fvLookup k l := by
  by_cases h : k' = k <;> simp [fvLookup, List.find?_cons, h]

theorem fvLookup_set_self (k : String) (v : FVal)
    (l : List (String × FVal)) : fvLookup k (fvSet k v l) = some v := by
  induction l with
  | nil => simp [fvSet, fvLookup, List.find?_cons]
  | cons kv l ih =>
      by_cases h : kv.1 = k
      · simp [fvSet, h, fvLookup, List.find?_cons]
      · simp only [fvSet, if_neg h]
        rw [fvLookup_cons, if_neg h]
        exact ih

theorem fvLookup_set_ne (k k' : String) (h : k' ≠ k) (v : FVal)
    (l : List (String × FVal)) :
    fvLookup k' (fvSet k v l) = fvLookup k' l := by
  induction l with
  | nil => simp [fvSet, fvLookup, List.find?_cons, h.symm]
  | cons kv l ih =>
      by_cases hk : kv.1 = k
      · simp only [fvSet, if_pos hk]
        rw [fvLookup_cons, fvLookup_cons, if_neg h.symm, if_neg]
        rw [hk]
        exact h.symm
      · simp only [fvSet, if_neg hk]
        rw [fvLookup_cons, fvLookup_cons]
        by_cases hkv : kv.1 = k'
        · simp [hkv]
        · rw [if_neg hkv, if_neg hkv]
          exact ih

theorem alistLookup_set_self {β : Type} (k : String) (v : β)
    (l : List (String × β)) : alistLookup k (alistSet k v l) = some v := by
  induction l with
  | nil => simp [alistSet, alistLookup, List.find?_cons]
  | cons kv l ih =>
      by_cases h : kv.1 = k
      · simp [alistSet, h, alistLookup, List.find?_cons]
      · simp only [alistSet, if_neg h]
        rw [alistLookup_cons, if_neg h]
        exact ih

theorem execute_flow_step_ok (agents : List (String × AgentCapability))
    (maxH : Nat) (ctx : ConversationContext) (s : FlowStep) (msg : String)
    (now : ℚ) (h : stepOk agents s) :
    (execute_flow_step agents maxH ctx s msg now).1.step_completed = true ∧
    fvLookup "current_step"
        (execute_flow_step agents maxH ctx s msg now).2.flow_variables
      = fvLookup "current_step" ctx.flow_variables ∧
    fvLookup "flow_start_time"
        (execute_flow_step agents maxH ctx s msg now).2.flow_variables
      = fvLookup "flow_start_time" ctx.flow_variables ∧
    (execute_flow_step agents maxH ctx s msg now).2.brain_region
      = ctx.brain_region := by
  rcases h with h | h | h | ⟨h, hv1, hv2⟩ | ⟨h, aid, haid, hne, hsome⟩
  · refine ⟨?_, ?_, ?_, ?_⟩ <;>
      simp [execute_flow_step, h, execute_message_step,
        add_to_conversation_history]
  · refine ⟨?_, ?_, ?_, ?_⟩ <;>
      simp [execute_flow_step, h, execute_memory_step]
  · refine ⟨?_, ?_, ?_, ?_⟩ <;>
      simp [execute_flow_step, h, execute_condition_step]
  · refine ⟨?_, ?_, ?_, ?_⟩ <;>
      simp [execute_flow_step, h, execute_input_step]
    · exact fvLookup_set_ne _ _ hv1.symm _ _
    · exact fvLookup_set_ne _ _ hv2.symm _ _
  · cases hlk : alistLookup aid agents with
    | none => rw [hlk] at hsome; simp at hsome
    | some ag =>
        refine ⟨?_, ?_, ?_, ?_⟩ <;>
          simp [execute_flow_step, h, execute_agent_step, haid, hne, hlk]

theorem execute_conversation_flow_step
    (flows : List (String × ConversationFlow))
    (agents : List (String × AgentCapability)) (maxH : Nat)
    (ctx : ConversationContext) (fid : String) (flow : ConversationFlow)
    (msg : String) (now t0 : ℚ) (j : Int)
    (hflow : alistLookup fid flows = some flow)
    (hcs : fvLookup "current_step" ctx.flow_variables = some (.int j))
    (hst : fvLookup "flow_start_time" ctx.flow_variables = some (.rat t0))
    (hj0 : 0 ≤ j) (hjlt : j < (flow.steps.length : Int))
    (hok : ∀ s ∈ flow.steps, stepOk agents s) :
    fvLookup "current_step"
        (execute_conversation_flow flows agents maxH ctx fid msg
          now).2.flow_variables = some (.int (j + 1)) ∧
    fvLookup "flow_start_time"
        (execute_conversation_flow flows agents maxH ctx fid msg
          now).2.flow_variables = some (.rat t0) ∧
    (execute_conversation_flow flows agents maxH ctx fid msg
      now).2.brain_region = ctx.brain_region := by
  have hlt : j.toNat < flow.steps.length := by omega
  have hget : flow.steps.get? j.toNat
      = some (flow.steps.get ⟨j.toNat, hlt⟩) := List.get?_eq_get hlt
  have hmem : flow.steps.get ⟨j.toNat, hlt⟩ ∈ flow.steps :=
    flow.steps.get_mem j.toNat hlt
  obtain ⟨hc1, hc2, hc3, hc4⟩ :=
    execute_flow_step_ok agents maxH
      { ctx with
        current_flow := some fid, flow_type := some flow.flow_type,
        current_state := .flow_execution }
      (flow.steps.get ⟨j.toNat, hlt⟩) msg now (hok _ hmem)
  have hge : ¬ j ≥ (flow.steps.length : Int) := by omega
  have hneg : ¬ j < 0 := by omega
  unfold execute_conversation_flow
  simp only [hflow, hcs, Option.isNone_some, Bool.false_eq_true, if_false,
    hget, hc1, if_true, hge, hneg]
  refine ⟨?_, ?_, ?_⟩
  · simp only [hc2, hcs]
    exact fvLookup_set_self _ _ _
  · simp only [hc2, hcs]
    rw [fvLookup_set_ne _ _ (by decide) _ _, hc3, hst]
  · simp only [hc2, hcs]
    exact hc4

theorem execute_conversation_flow_first
    (flows : List (String × ConversationFlow))
    (agents : List (String × AgentCapability)) (maxH : Nat)
    (ctx : ConversationContext) (fid : String) (flow : ConversationFlow)
    (msg : String) (now : ℚ)
    (hflow : alistLookup fid flows = some flow)
    (hfresh : fvLookup "current_step" ctx.flow_variables = none)
    (hlen : 0 < flow.steps.length)
    (hok : ∀ s ∈ flow.steps, stepOk agents s) :
    fvLookup "current_step"
        (execute_conversation_flow flows agents maxH ctx fid msg
          now).2.flow_variables = some (.int 1) ∧
    fvLookup "flow_start_time"
        (execute_conversation_flow flows agents maxH ctx fid msg
          now).2.flow_variables = some (.rat now) ∧
    (execute_conversation_flow flows agents maxH ctx fid msg
      now).2.brain_region = ctx.brain_region := by
  have hget : flow.steps.get? 0 = some (flow.steps.get ⟨0, hlen⟩) :=
    List.get?_eq_get hlen
  have hmem : flow.steps.get ⟨0, hlen⟩ ∈ flow.steps :=
    flow.steps.get_mem 0 hlen
  have hcs0 : fvLookup "current_step"
      (fvSet "flow_start_time" (.rat now)
        (fvSet "current_step" (.int 0) ctx.flow_variables))
      = some (.int 0) := by
    rw [fvLookup_set_ne _ _ (by decide) _ _]
    exact fvLookup_set_self _ _ _
  have hst0 : fvLookup "flow_start_time"
      (fvSet "flow_start_time" (.rat now)
        (fvSet "current_step" (.int 0) ctx.flow_variables))
      = some (.rat now) := fvLookup_set_self _ _ _
  obtain ⟨hc1, hc2, hc3, hc4⟩ :=
    execute_flow_step_ok agents maxH
      { ctx with
        current_flow := some fid, flow_type := some flow.flow_type,
        current_state := .flow_execution,
        flow_variables :=
          fvSet "flow_start_time" (.rat now)
            (fvSet "current_step" (.int 0) ctx.flow_variables) }
      (flow.steps.get ⟨0, hlen⟩) msg now (hok _ hmem)
  have hge : ¬ (0 : Int) ≥ (flow.steps.length : Int) := by
    simp only [ge_iff_le, not_le]
    exact_mod_cast hlen
  have hneg : ¬ (0 : Int) < 0 := by omega
  unfold execute_conversation_flow
  simp only [hflow, hfresh, Option.isNone_none, if_true, hcs0, hge, hneg,
    Bool.false_eq_true, if_false, Int.toNat_zero, hget, hc1]
  refine ⟨?_, ?_, ?_⟩
  · simp only [hc2, hcs0]
    have : (0 : Int) + 1 = 1 := by omega
    rw [this]
    exact fvLookup_set_self _ _ _
  · simp only [hc2, hcs0]
    rw [fvLookup_set_ne _ _ (by decide) _ _, hc3, hst0]
  · simp only [hc2, hcs0]
    exact hc4

theorem execute_conversation_flow_complete
    (flows : List (String × ConversationFlow))
    (agents : List (String × AgentCapability)) (maxH : Nat)
    (ctx : ConversationContext) (fid : String) (flow : ConversationFlow)
    (msg : String) (now t0 : ℚ) (j : Int)
    (hflow : alistLookup fid flows = some flow)
    (hcs : fvLookup "current_step" ctx.flow_variables = some (.int j))
    (hst : fvLookup "flow_start_time" ctx.flow_variables = some (.rat t0))
    (hge : (flow.steps.length : Int) ≤ j) :
    (execute_conversation_flow flows agents maxH ctx fid msg
      now).2.current_state = .completed ∧
    (execute_conversation_flow flows agents maxH ctx fid msg
      now).2.current_flow = none ∧
    fvLookup "flow_duration"
        (execute_conversation_flow flows agents maxH ctx fid msg
          now).2.flow_variables = some (.rat (now - t0)) := by
  have hge' : j ≥ (flow.steps.length : Int) := hge
  unfold execute_conversation_flow complete_flow
  simp only [hflow, hcs, Option.isNone_some, Bool.false_eq_true, if_false,
    hge', if_true, hst]
  refine ⟨by trivial, by trivial, fvLookup_set_self _ _ _⟩

theorem process_message_to_flow (mgr : RasaManager) (sid msg mtype : String)
    (now : ℚ) (ctx : ConversationContext) (fid : String)
    (hs : alistLookup sid mgr.sessions = some ctx)
    (hd : (determine_conversation_flow mgr.flows
        (add_to_conversation_history mgr.max_conversation_history
          { ctx with current_state := .processing, updated_at := now }
          mtype msg now) msg).1 = some fid) :
    process_message mgr sid msg mtype now =
      ((execute_conversation_flow mgr.flows mgr.agents
          mgr.max_conversation_history
          (add_to_conversation_history mgr.max_conversation_history
            { ctx with current_state := .processing, updated_at := now }
            mtype msg now) fid msg now).1,
        { mgr with
          sessions := alistSet sid
            (execute_conversation_flow mgr.flows mgr.agents
              mgr.max_conversation_history
              (add_to_conversation_history mgr.max_conversation_history
                { ctx with current_state := .processing, updated_at := now }
                mtype msg now) fid msg now).2 mgr.sessions }) := by
  unfold process_message
  simp only [hs, hd]

theorem process_message_inv_step (mgr0 mgr : RasaManager)
    (sid msg mtype r0 : String) (t0 now : ℚ) (fid : String)
    (flow : ConversationFlow) (j : Int)
    (hflow : alistLookup fid mgr0.flows = some flow)
    (hdet : ∀ ctx : ConversationContext, ctx.brain_region = r0 →
      (determine_conversation_flow mgr0.flows ctx msg).1 = some fid)
    (hok : ∀ s ∈ flow.steps, stepOk mgr0.agents s)
    (hinv : sessionInv mgr0 mgr sid r0 t0 j)
    (hj0 : 0 ≤ j) (hjlt : j < (flow.steps.length : Int)) :
    sessionInv mgr0 (process_message mgr sid msg mtype now).2 sid r0 t0
      (j + 1) := by
  obtain ⟨hfl, hag, hmx, ctx, hs, hr, hcs, hst⟩ := hinv
  have hr2 : (add_to_conversation_history mgr.max_conversation_history
      { ctx with current_state := .processing, updated_at := now }
      mtype msg now).brain_region = r0 := hr
  have hd : (determine_conversation_flow mgr.flows
      (add_to_conversation_history mgr.max_conversation_history
        { ctx with current_state := .processing, updated_at := now }
        mtype msg now) msg).1 = some fid := by
    rw [hfl]; exact hdet _ hr2
  rw [process_message_to_flow mgr sid msg mtype now ctx fid hs hd]
  obtain ⟨he1, he2, he3⟩ :=
    execute_conversation_flow_step mgr.flows mgr.agents
      mgr.max_conversation_history
      (add_to_conversation_history mgr.max_conversation_history
        { ctx with current_state := .processing, updated_at := now }
        mtype msg now) fid flow msg now t0 j
      (by rw [hfl]; exact hflow) hcs hst hj0 hjlt
      (fun s hsm => hag ▸ hok s hsm)
  exact ⟨hfl, hag, hmx, _, alistLookup_set_self _ _ _, by rw [he3]; exact hr2,
    he1, he2⟩

theorem process_message_inv_first (mgr0 : RasaManager)
    (sid msg mtype r0 : String) (now : ℚ) (fid : String)
    (flow : ConversationFlow) (ctx0 : ConversationContext)
    (hflow : alistLookup fid mgr0.flows = some flow)
    (hdet : ∀ ctx : ConversationContext, ctx.brain_region = r0 →
      (determine_conversation_flow mgr0.flows ctx msg).1 = some fid)
    (hok : ∀ s ∈ flow.steps, stepOk mgr0.agents s)
    (hs : alistLookup sid mgr0.sessions = some ctx0)
    (hr : ctx0.brain_region = r0)
    (hfresh : fvLookup "current_step" ctx0.flow_variables = none)
    (hlen : 0 < flow.steps.length) :
    sessionInv mgr0 (process_message mgr0 sid msg mtype now).2 sid r0 now
      1 := by
  have hr2 : (add_to_conversation_history mgr0.max_conversation_history
      { ctx0 with current_state := .processing, updated_at := now }
      mtype msg now).brain_region = r0 := hr
  have hd : (determine_conversation_flow mgr0.flows
      (add_to_conversation_history mgr0.max_conversation_history
        { ctx0 with current_state := .processing, updated_at := now }
        mtype msg now) msg).1 = some fid := hdet _ hr2
  rw [process_message_to_flow mgr0 sid msg mtype now ctx0 fid hs hd]
  obtain ⟨he1, he2, he3⟩ :=
    execute_conversation_flow_first mgr0.flows mgr0.agents
      mgr0.max_conversation_history
      (add_to_conversation_history mgr0.max_conversation_history
        { ctx0 with current_state := .processing, updated_at := now }
        mtype msg now) fid flow msg now hflow hfresh hlen hok
  exact ⟨rfl, rfl, rfl, _, alistLookup_set_self _ _ _, by rw [he3]; exact hr2,
    he1, he2⟩

theorem process_message_inv_complete (mgr0 mgr : RasaManager)
    (sid msg mtype r0 : String) (t0 now : ℚ) (fid : String)
    (flow : ConversationFlow) (j : Int)
    (hflow : alistLookup fid mgr0.flows = some flow)
    (hdet : ∀ ctx : ConversationContext, ctx.brain_region = r0 →
      (determine_conversation_flow mgr0.flows ctx msg).1 = some fid)
    (hinv : sessionInv mgr0 mgr sid r0 t0 j)
    (hge : (flow.steps.length : Int) ≤ j) :
    ∃ ctxF, alistLookup sid (process_message mgr sid msg mtype
        now).2.sessions = some ctxF ∧
      ctxF.current_state = .completed ∧ ctxF.current_flow = none ∧
      fvLookup "flow_duration" ctxF.flow_variables
        = some (.rat (now - t0)) := by
  obtain ⟨hfl, hag, hmx, ctx, hs, hr, hcs, hst⟩ := hinv
  have hr2 : (add_to_conversation_history mgr.max_conversation_history
      { ctx with current_state := .processing, updated_at := now }
      mtype msg now).brain_region = r0 := hr
  have hd : (determine_conversation_flow mgr.flows
      (add_to_conversation_history mgr.max_conversation_history
        { ctx with current_state := .processing, updated_at := now }
        mtype msg now) msg).1 = some fid := by
    rw [hfl]; exact hdet _ hr2
  rw [process_message_to_flow mgr sid msg mtype now ctx fid hs hd]
  obtain ⟨he1, he2, he3⟩ :=
    execute_conversation_flow_complete mgr.flows mgr.agents
      mgr.max_conversation_history
      (add_to_conversation_history mgr.max_conversation_history
        { ctx with current_state := .processing, updated_at := now }
        mtype msg now) fid flow msg now t0 j
      (by rw [hfl]; exact hflow) hcs hst hge
  exact ⟨_, alistLookup_set_self _ _ _, he1, he2, he3⟩

theorem process_message_iter_inv (mgr0 : RasaManager)
    (sid msg mtype r0 : String) (times : Nat → ℚ) (fid : String)
    (flow : ConversationFlow) (ctx0 : ConversationContext)
    (hflow : alistLookup fid mgr0.flows = some flow)
    (hdet : ∀ ctx : ConversationContext, ctx.brain_region = r0 →
      (determine_conversation_flow mgr0.flows ctx msg).1 = some fid)
    (hok : ∀ s ∈ flow.steps, stepOk mgr0.agents s)
    (hs : alistLookup sid mgr0.sessions = some ctx0)
    (hr : ctx0.brain_region = r0)
    (hfresh : fvLookup "current_step" ctx0.flow_variables = none) :
    ∀ k : Nat, k + 1 ≤ flow.steps.length →
      sessionInv mgr0 (process_message_iter sid msg mtype times mgr0 (k + 1))
        sid r0 (times 0) ((k : Int) + 1) := by
  intro k
  induction k with
  | zero =>
      intro hk
      simpa using process_message_inv_first mgr0 sid msg mtype r0 (times 0)
        fid flow ctx0 hflow hdet hok hs hr hfresh (by omega)
  | succ k ih =>
      intro hk
      have h2 := process_message_inv_step mgr0
        (process_message_iter sid msg mtype times mgr0 (k + 1)) sid msg
        mtype r0 (times 0) (times (k + 1)) fid flow ((k : Int) + 1) hflow
        hdet hok (ih (by omega)) (by omega) (by omega)
      have hcast : (((k + 1 : Nat) : Int) + 1) = (((k : Int) + 1) + 1) := by
        push_cast; ring
      show sessionInv mgr0
        (process_message (process_message_iter sid msg mtype times mgr0
          (k + 1)) sid msg mtype (times (k + 1))).2 sid r0 (times 0)
        (((k + 1 : Nat) : Int) + 1)
      rw [hcast]
      exact h2

/-- C2 amended: for a registered flow with `N ≥ 1` steps, a fresh
session whose messages always select that flow, driven by `N + 1`
`process_message` calls — the first `N` each executing one
always-completing step (`stepOk`), and the `(N+1)`-th observing that
`current_step` has reached `N` — ends with `current_state = completed`,
`current_flow = None`, and `flow_duration = times N - times 0 ≥ 0`
recorded in `flow_variables` (non-negative for monotone call times). -/
theorem c2_flow_completion (mgr0 : RasaManager) (sid msg mtype : String)
    (times : Nat → ℚ) (fid : String) (flow : ConversationFlow)
    (ctx0 : ConversationContext) (N : Nat)
    (hflow : alistLookup fid mgr0.flows = some flow)
    (hN : flow.steps.length = N) (hNpos : 0 < N)
    (hs : alistLookup sid mgr0.sessions = some ctx0)
    (hfresh : fvLookup "current_step" ctx0.flow_variables = none)
    (hdet : ∀ ctx : ConversationContext,
      ctx.brain_region = ctx0.brain_region →
      (determine_conversation_flow mgr0.flows ctx msg).1 = some fid)
    (hok : ∀ s ∈ flow.steps, stepOk mgr0.agents s)
    (htime : times 0 ≤ times N) :
    ∃ ctxF,
      alistLookup sid (process_message_iter sid msg mtype times mgr0
          (N + 1)).sessions = some ctxF ∧
      ctxF.current_state = .completed ∧ ctxF.current_flow = none ∧
      fvLookup "flow_duration" ctxF.flow_variables
        = some (.rat (times N - times 0)) ∧
      0 ≤ times N - times 0 := by
  subst hN
  obtain ⟨k, hk⟩ : ∃ k, flow.steps.length = k + 1 :=
    ⟨flow.steps.length - 1, by omega⟩
  have hinv := process_message_iter_inv mgr0 sid msg mtype
    ctx0.brain_region times fid flow ctx0 hflow hdet hok hs rfl hfresh k
    (by omega)
  rw [← hk] at hinv
  have hcomp := process_message_inv_complete mgr0
    (process_message_iter sid msg mtype times mgr0 flow.steps.length) sid
    msg mtype ctx0.brain_region (times 0) (times flow.steps.length) fid
    flow ((k : Int) + 1) hflow hdet hinv (by rw [hk]; omega)
  obtain ⟨ctxF, h1, h2, h3, h4⟩ := hcomp
  exact ⟨ctxF, h1, h2, h3, h4, by linarith⟩

theorem c2det : ∀ ctx : ConversationContext,
    ctx.brain_region = c2ctx.brain_region →
    (determine_conversation_flow c2mgr.flows ctx "what").1
      = some "simple_qa" := by
  intro ctx h
  have h' : ctx.brain_region = "FRONTAL_LOBE" := h
  show (determine_conversation_flow default_flows ctx "what").1
    = some "simple_qa"
  simp [determine_conversation_flow, default_flows, memory_flow, qa_flow,
    subStrB, lowerStr, lowerChar, infixCheck, prefixCheck, h']
  norm_num

theorem c2stepsOk : ∀ s ∈ qa_flow.steps, stepOk c2mgr.agents s := by
  intro s hs
  rw [List.mem_singleton.mp hs]
  exact Or.inl rfl

theorem c2sess : alistLookup "s1" c2mgr.sessions = some c2ctx := rfl

theorem c2flowLookup :
    alistLookup "simple_qa" c2mgr.flows = some qa_flow := rfl

/-- Witness for C2 (amended): the one-step Simple Q&A flow, driven by
two `process_message "what"` calls at time `0`. -/
theorem c2_flow_completion_witness :
    alistLookup "simple_qa" c2mgr.flows = some qa_flow ∧
    qa_flow.steps.length = 1 ∧ 0 < 1 ∧
    alistLookup "s1" c2mgr.sessions = some c2ctx ∧
    fvLookup "current_step" c2ctx.flow_variables = none ∧
    (fun _ : Nat => (0:ℚ)) 0 ≤ (fun _ : Nat => (0:ℚ)) 1 ∧
    (∃ ctxF,
      alistLookup "s1" (process_message_iter "s1" "what" "user"
          (fun _ => 0) c2mgr (1 + 1)).sessions = some ctxF ∧
      ctxF.current_state = .completed ∧ ctxF.current_flow = none ∧
      fvLookup "flow_duration" ctxF.flow_variables
        = some (.rat ((fun _ : Nat => (0:ℚ)) 1 - (fun _ : Nat => (0:ℚ)) 0)) ∧
      0 ≤ (fun _ : Nat => (0:ℚ)) 1 - (fun _ : Nat => (0:ℚ)) 0) :=
  ⟨c2flowLookup, rfl, by decide, c2sess, rfl, le_refl 0,
    c2_flow_completion c2mgr "s1" "what" "user" (fun _ => 0) "simple_qa"
      qa_flow c2ctx 1 c2flowLookup rfl (by decide) c2sess rfl c2det
      c2stepsOk (le_refl 0)⟩

/-- Counterexample to C2 as stated: the Simple Q&A flow has `N = 1`
steps; after `N = 1` `process_message` call whose executed step reports
`step_completed=True`, the session is still in `flow_execution` with
`current_flow = "simple_qa"` — not `completed` with `current_flow =
None`.  (Completion only happens on the `(N+1)`-th call, which observes
`current_step = N`.) -/
theorem c2_counterexample :
    qa_flow.steps.length = 1 ∧
    (process_message c2mgr "s1" "what" "user" 1).1.step_completed = true ∧
    (alistLookup "s1"
        (process_message c2mgr "s1" "what" "user" 1).2.sessions).map
      (fun c => c.current_state) = some ConversationState.flow_execution ∧
    (alistLookup "s1"
        (process_message c2mgr "s1" "what" "user" 1).2.sessions).map
      (fun c => c.current_flow) = some (some "simple_qa") := by
  have hd : (determine_conversation_flow c2mgr.flows
      (add_to_conversation_history c2mgr.max_conversation_history
        { c2ctx with current_state := .processing, updated_at := 1 }
        "user" "what" 1) "what").1 = some "simple_qa" := c2det _ rfl
  have hpm := process_message_to_flow c2mgr "s1" "what" "user" 1 c2ctx
    "simple_qa" c2sess hd
  refine ⟨rfl, ?_, ?_, ?_⟩ <;> rw [hpm] <;> rfl
